import Mathlib

/-!
Verification of the owi-metadatabase geometry core.

Shallow embedding of the geometry-processing engine
(`owi/metadatabase/geometry/structures.py` and
`owi/metadatabase/geometry/processing.py`) and proofs for the frozen
claims about it.

Modelling conventions:
* numpy `float64` scalars are modelled by `ℚ`; floating-point rounding is
  idealised to exact rational arithmetic.  The numpy constant `np.pi` is
  modelled by `npPi`, the rational value of the IEEE-754 double nearest π.
* A raw building-block field can be absent from the record, `None`,
  `NaN`, or a number; the inductive `RawV` captures the four cases.
* Dataframe cells that can be missing (`None`) or non-finite (`NaN`,
  `inf` - e.g. produced by a division by zero) are modelled by
  `Option ℚ` with `none` for every non-finite/missing cell; pandas
  reductions skip those cells, as the code relies on.
* Dataframes are modelled as Lean lists of row structures, in frame
  order; `pd.concat` is list append, a boolean-mask filter is
  `List.filter`.
* Python `round` / `pandas.DataFrame.round` use round-half-to-even,
  modelled exactly by `roundEven` / `roundTo`.
* In-place mutation of an `OWT`/`OWTs` object is modelled by explicit
  state passing: a mutating method becomes `State → State × Option String`
  where the second component is the message of the exception raised (if
  any); mutations performed before the raise are kept in the returned
  state, as in Python.  A non-mutating method that can raise becomes
  `... → Except String result`.
-/

namespace Owi

/-- Round-half-to-even to an integer, the semantics of Python `round`
and of numpy/pandas `round`. -/
def roundEven (x : ℚ) : ℤ :=
  let f := ⌊x⌋
  if x - f < 1/2 then f
  else if x - f > 1/2 then f + 1
  else if f % 2 = 0 then f else f + 1

/-- `round(x, n)`: round-half-to-even at `n` decimal digits. -/
def roundTo (n : ℕ) (x : ℚ) : ℚ :=
  (roundEven (x * 10 ^ n) : ℚ) / 10 ^ n

/-- The IEEE-754 double closest to π, i.e. the exact rational value of
`numpy.pi` (`0x1921FB54442D18 × 2⁻⁵¹`). -/
def npPi : ℚ := 884279719003555 / 281474976710656

/-- A raw JSON/dataframe field of a building-block record: absent from
the record, `None`, `NaN`, or an actual number. -/
inductive RawV
  | absent
  | pynone
  | pynan
  | num (q : ℚ)
deriving DecidableEq, Repr

/-- Field-presence test used by `BuildingBlock.type`:
`k in json and json[k] is not None and not np.isnan(json[k])`. -/
def RawV.present : RawV → Bool
  | .num _ => true
  | _ => false

/-- Python truthiness of a raw field as seen through a property that
returns `json[k]` when the key exists and `None` otherwise: `None` and
`0.0` are falsy, `NaN` and every other number are truthy. -/
def RawV.truthy : RawV → Bool
  | .num q => q ≠ 0
  | .pynan => true
  | _ => false

/-- The numeric content of a raw field, when it has one. -/
def RawV.toNum : RawV → Option ℚ
  | .num q => some q
  | _ => none

/-- The raw fields of a building-block record that the classification
and the geometric properties consult
(`structures.py`, class `BuildingBlock`). -/
structure RawBB where
  bottom_outer_diameter : RawV
  top_outer_diameter : RawV
  wall_thickness : RawV
  height : RawV
  mass : RawV
  mass_distribution : RawV
  volume_distribution : RawV
  moment_of_inertia_x : RawV := .pynan
  moment_of_inertia_y : RawV := .pynan
  moment_of_inertia_z : RawV := .pynan
deriving DecidableEq, Repr

/-- `BuildingBlock.type` (structures.py:302-359): fixed-priority
field-presence probe over `bottom_outer_diameter`, `mass`,
`mass_distribution` (Python dict iteration order = insertion order);
raises when no field matches. -/
def bbType (r : RawBB) : Except String String :=
  if r.bottom_outer_diameter.present then .ok "tubular_section"
  else if r.mass.present then .ok "lumped_mass"
  else if r.mass_distribution.present then .ok "distributed_mass"
  else .error "Could not find supported building block type."

/-- `_calc_cone_volume` (structures.py:415-425): volume of a conical
frustum of bottom radius `rBottom`, top radius `rTop` and height
`height`, all in mm. -/
def calcConeVolume (rBottom rTop height : ℚ) : ℚ :=
  npPi * height / 3 * (rBottom ^ 2 + rBottom * rTop + rTop ^ 2)

/-- `BuildingBlock.volume` (structures.py:409-442).  For a tubular
section: outer frustum minus inner frustum (inner radii = outer radii
minus the wall thickness), scaled from mm³ to m³; guarded by Python
truthiness of `self.height`.  For a distributed mass:
`round(volume_distribution * height / 1000)`.  Lumped mass: `None`.
A non-numeric operand (`NaN` field) makes the float result non-finite,
modelled as `.ok none`. -/
def bbVolume (r : RawBB) : Except String (Option ℚ) :=
  match bbType r with
  | .error e => .error e
  | .ok t =>
    if t = "tubular_section" then
      if r.height.truthy then
        match r.bottom_outer_diameter.toNum, r.top_outer_diameter.toNum,
              r.wall_thickness.toNum, r.height.toNum with
        | some db, some dt, some w, some h =>
          .ok (some ((calcConeVolume (db / 2) (dt / 2) h
            - calcConeVolume (db / 2 - w) (dt / 2 - w) h) / 1000000000))
        | _, _, _, _ => .ok none
      else .error "Height data is missing."
    else if t = "distributed_mass" then
      if r.height.truthy then
        match r.volume_distribution.toNum, r.height.toNum with
        | some vd, some h => .ok (some (roundEven (vd * h / 1000) : ℚ))
        | _, _ => .ok none
      else .error "Height data is missing."
    else .ok none

/-! ## Option-valued float cells

`none` models a missing or non-finite (NaN/inf) dataframe cell; binary
arithmetic propagates it, and a division whose denominator is zero
produces a non-finite float, hence `none`. -/

/-- Cell addition with NaN propagation. -/
def oadd : Option ℚ → Option ℚ → Option ℚ
  | some a, some b => some (a + b)
  | _, _ => none

/-- Cell subtraction with NaN propagation. -/
def osub : Option ℚ → Option ℚ → Option ℚ
  | some a, some b => some (a - b)
  | _, _ => none

/-- Cell multiplication with NaN propagation. -/
def omul : Option ℚ → Option ℚ → Option ℚ
  | some a, some b => some (a * b)
  | _, _ => none

/-- Cell division: NaN propagates, and a zero denominator yields a
non-finite float (inf/NaN), modelled as `none`. -/
def odiv : Option ℚ → Option ℚ → Option ℚ
  | some a, some b => if b = 0 then none else some (a / b)
  | _, _ => none

/-- `cell > q` as pandas evaluates it: `NaN > q` is `False`. -/
def oGtQ (o : Option ℚ) (q : ℚ) : Bool :=
  match o with
  | some v => v > q
  | none => false

/-- `cell < q` as pandas evaluates it: `NaN < q` is `False`. -/
def oLtQ (o : Option ℚ) (q : ℚ) : Bool :=
  match o with
  | some v => v < q
  | none => false

/-- `cell != q` as numpy evaluates it: `NaN != q` is `True`. -/
def neQ (o : Option ℚ) (q : ℚ) : Bool :=
  match o with
  | some v => v ≠ q
  | none => true

/-- Sum of a column, skipping missing cells (pandas `Series.sum`
default `skipna=True`). -/
def osum (l : List (Option ℚ)) : ℚ :=
  (l.filterMap id).sum

/-- `np.interp(x, [x0, x1], [y0, y1])` for a two-point table, following
numpy's `compiled_interp`: a key above the last abscissa takes the right
value, a key below the first abscissa takes the left value (numpy
assumes `xp` is increasing and never checks), then the interval search
and the exact-hit shortcuts, then the slope formula. -/
def npInterp2 (x x0 x1 y0 y1 : ℚ) : ℚ :=
  if x > x1 then y1
  else if x < x0 then y0
  else if x ≥ x1 then y1
  else if x = x0 then y0
  else y0 + (y1 - y0) * (x - x0) / (x1 - x0)

/-- `np.interp` on cells: a NaN key gives NaN; a NaN in the table is
approximated as a non-finite result as well (numpy would fall into one
of the endpoint branches there; no claim exercises that corner). -/
def oInterp (x x0 x1 y0 y1 : Option ℚ) : Option ℚ :=
  match x, x0, x1, y0, y1 with
  | some a, some b, some c, some d, some e => some (npInterp2 a b c d e)
  | _, _, _, _, _ => none

/-! ## Row types of the derived dataframes -/

/-- A row of a processed tubular-geometry dataframe (the output of
`process_structure_geometry`, also the row type of `substructure`,
`tp_skirt` and `full_structure`).  Fields: "Elevation from [mLAT]",
"Elevation to [mLAT]", "Height [m]", "Diameter from [m]",
"Diameter to [m]", "Volume [m3]", "Wall thickness [mm]",
"Youngs modulus [GPa]", "Poissons ratio [-]", "Mass [t]", "rho [t/m]",
and the "Subassembly" tag column added by `extend_dfs` (`none` when the
column is absent). -/
structure CanRow where
  elev_from : Option ℚ
  elev_to : Option ℚ
  height_m : Option ℚ
  diam_from : Option ℚ
  diam_to : Option ℚ
  volume : Option ℚ
  wall : Option ℚ
  youngs : Option ℚ
  poissons : Option ℚ
  mass_t : Option ℚ
  rho : Option ℚ
  sub : Option String := none
deriving DecidableEq, Repr

/-- The four recomputed can properties returned (as a `pd.Series`) by
`OWT.can_adjust_properties`: "Height [m]", "Volume [m3]", "Mass [t]",
"rho [t/m]". -/
structure AdjProps where
  height_m : Option ℚ
  volume : Option ℚ
  mass_t : Option ℚ
  rho : Option ℚ
deriving DecidableEq, Repr

/-- `OWT.can_adjust_properties` (processing.py:650-701): density from
the stored mass and volume, height from the elevation span, outer and
inner frustum volumes from the diameters and the wall thickness
(mm → m), mass = volume × density, rho = mass / height. -/
def canAdjustProperties (row : CanRow) : AdjProps :=
  let density := odiv row.mass_t row.volume
  let height := osub row.elev_from row.elev_to
  let r1 := Option.map (· / 2) row.diam_from
  let r2 := Option.map (· / 2) row.diam_to
  let quad (a b : Option ℚ) : Option ℚ := oadd (oadd (omul a a) (omul a b)) (omul b b)
  let volume_out := omul (omul (some (1 / 3 * npPi)) (quad r1 r2)) height
  let wt := Option.map (· * (1 / 1000)) row.wall
  let r1i := osub r1 wt
  let r2i := osub r2 wt
  let volume_in := omul (omul (some (1 / 3 * npPi)) (quad r1i r2i)) height
  let volume := osub volume_out volume_in
  let mass := omul volume density
  let rho_m := odiv mass height
  ⟨height, volume, mass, rho_m⟩

/-- Overwrite the four recomputed columns of a row with the result of
`can_adjust_properties` (the `df.loc[df.index[ind], cols] = ...`
assignment in `can_modification`). -/
def applyAdj (r : CanRow) (p : AdjProps) : CanRow :=
  { r with height_m := p.height_m, volume := p.volume,
           mass_t := p.mass_t, rho := p.rho }

/-- The per-row work of `OWT.can_modification`: write the truncation
altitude into the boundary elevation ("to" for `position="bottom"`,
"from" otherwise), recompute the matching diameter with `np.interp`
over the row's (post-write) elevation pair, then recompute the
derived properties.  `altitude = None` becomes `float("nan")`. -/
def canModifyRow (r : CanRow) (altitude : Option ℚ) (bottom : Bool) : CanRow :=
  let r := if bottom then { r with elev_to := altitude } else { r with elev_from := altitude }
  let interpv := oInterp altitude r.elev_from r.elev_to r.diam_from r.diam_to
  let r := if bottom then { r with diam_to := interpv } else { r with diam_from := interpv }
  applyAdj r (canAdjustProperties r)

/-- `OWT.can_modification` (processing.py:703-786): modifies the last
row (`position="bottom"`, `ind = -1`) or the first row (any other
`position`, `ind = 0`) of the dataframe in place; an empty frame makes
`df.index[ind]` raise. -/
def canModification (df : List CanRow) (altitude : Option ℚ) (position : String) :
    Except String (List CanRow) :=
  if position = "bottom" then
    match df.getLast? with
    | none => .error "IndexError: index -1 is out of bounds"
    | some rl => .ok (df.dropLast ++ [canModifyRow rl altitude true])
  else
    match df with
    | [] => .error "IndexError: index 0 is out of bounds"
    | r0 :: rest => .ok (canModifyRow r0 altitude false :: rest)

/-! ## Remaining derived row types and the OWT state -/

/-- Diameter-string column "OD" produced by `BuildingBlock.diameter_str`:
either empty (not a tubular section), a single rounded value, or
"bottom/top".  `single d` models the string `str(d)`, `double b t` the
string `str(b) + "/" + str(t)`. -/
inductive ODRep
  | empty
  | single (d : ℚ)
  | double (bottom top : ℚ)
deriving DecidableEq, Repr

/-- A row of a subassembly dataframe (`SubAssembly.as_df`, built from
`BuildingBlock.as_dict`), indexed by "title"; `none` in a numeric cell
models `None`/`NaN`, `moi = none` models the all-`None`
moment-of-inertia dict of a non-lumped block. -/
structure BBDictRow where
  title : String
  x : ℚ
  y : ℚ
  z : ℚ
  od : ODRep
  wall : Option ℚ
  height : Option ℚ
  volume : Option ℚ
  mass : Option ℚ
  moi : Option (ℚ × ℚ × ℚ)
  description : String
deriving DecidableEq, Repr

/-- A row of a lumped-mass dataframe (`process_lumped_masses`):
"X [m]", "Y [m]", "Z [mLAT]", "Mass [t]", "Description",
plus the "Subassembly" tag. -/
structure LumpRow where
  x_m : Option ℚ
  y_m : Option ℚ
  z_mlat : Option ℚ
  mass_t : Option ℚ
  description : String
  sub : Option String := none
deriving DecidableEq, Repr

/-- A row of a distributed-mass dataframe
(`process_distributed_lumped_masses`): "X [m]", "Y [m]", "Z [mLAT]",
"Height [m]", "Mass [t]", "Volume [m3]", "Description", plus the
"Subassembly" tag. -/
structure DistRow where
  x_m : Option ℚ
  y_m : Option ℚ
  z_mlat : Option ℚ
  height_m : Option ℚ
  mass_t : Option ℚ
  volume : Option ℚ
  description : String
  sub : Option String := none
deriving DecidableEq, Repr

/-- A row of the RNA dataframe (`process_rna`): "X [m]", "Y [m]",
"Z [mLAT]", "Mass [t]", "Ixx [tm2]", "Iyy [tm2]", "Izz [tm2]",
"Description", plus the "Subassembly" tag. -/
structure RnaRow where
  x_m : Option ℚ
  y_m : Option ℚ
  z_mlat : Option ℚ
  mass_t : Option ℚ
  ixx : Option ℚ
  iyy : Option ℚ
  izz : Option ℚ
  description : String
  sub : Option String := none
deriving DecidableEq, Repr

/-- The slice of a `SubAssembly` object consulted by the OWT processing
methods (`sub_assemblies[idx].position.z`). -/
structure SAInfo where
  pos_z : ℚ
deriving DecidableEq, Repr

/-- The mutable state of an `OWT` object (processing.py:42-96): the
stage flags, the per-kind raw subassembly frames, the reference
elevations and the derived tables (all `None` right after
construction). -/
structure OWTState where
  init_proc : Bool
  init_spec_part : Bool
  init_spec_full : Bool
  sub_assemblies : List (String × SAInfo)
  tw_sub_assemblies : Option (List BBDictRow)
  tp_sub_assemblies : Option (List BBDictRow)
  mp_sub_assemblies : Option (List BBDictRow)
  tower_base : Option ℚ
  pile_head : Option ℚ
  water_depth : ℚ
  pile_toe : Option ℚ
  rna : Option (List RnaRow)
  tower : Option (List CanRow)
  transition_piece : Option (List CanRow)
  monopile : Option (List CanRow)
  tw_lumped_mass : Option (List LumpRow)
  tp_lumped_mass : Option (List LumpRow)
  mp_lumped_mass : Option (List LumpRow)
  tp_distributed_mass : Option (List DistRow)
  mp_distributed_mass : Option (List DistRow)
  grout : Option (List DistRow)
  full_structure : Option (List CanRow)
  tp_skirt : Option (List CanRow)
  substructure : Option (List CanRow)
deriving DecidableEq, Repr

/-- `OWT.assembly_tp_mp` (processing.py:788-873).  Sets the
partial-assembly flag, keeps the TP rows whose "Elevation from" exceeds
`pile_head`; when the FIRST such row's "Elevation to" differs from
`pile_head` the boundary can is truncated with `can_modification`
(`position="bottom"`), and the retained rows followed by the monopile
become `substructure`; the TP rows whose "Elevation to" is below
`pile_head` are truncated from the top and become `tp_skirt`.  Raises
`TypeError` when TP or MP is unprocessed; mutations performed before an
exception (the flag, `substructure`) survive it. -/
def assemblyTpMp (s : OWTState) : OWTState × Option String :=
  let s := { s with init_spec_part := true }
  match s.transition_piece, s.monopile with
  | some tp, some mp =>
    match s.pile_head with
    | none => (s, some "TypeError: comparison of float and NoneType")
    | some ph =>
      let df1 := tp.filter (fun r => oGtQ r.elev_from ph)
      match df1.head? with
      | none => (s, some "IndexError: index 0 is out of bounds")
      | some r0 =>
        let subRes : Except String (List CanRow) :=
          if neQ r0.elev_to ph then
            -- Not bolted connection (i.e. Rentel) preprocessing needed
            (canModification df1 (some ph) "bottom").map (· ++ mp)
          else
            -- Bolted connection, nothing to do
            .ok (df1 ++ mp)
        match subRes with
        | .error e => (s, some e)
        | .ok subst =>
          let s := { s with substructure := some subst }
          let df2 := tp.filter (fun r => oLtQ r.elev_to ph)
          match canModification df2 (some ph) "top" with
          | .error e => (s, some e)
          | .ok sk => ({ s with tp_skirt := some sk }, none)
  | _, _ => (s, some "TP or MP items need to be processed before!")

/-- `OWT.assembly_full_structure` (processing.py:875-927): sets the
full-assembly flag, then requires `substructure` and `tower` in that
order, raising a sequencing `TypeError` naming the missing one;
`full_structure` becomes tower followed by substructure. -/
def assemblyFullStructure (s : OWTState) : OWTState × Option String :=
  let s := { s with init_spec_full := true }
  match s.substructure with
  | some subst =>
    match s.tower with
    | some tw => ({ s with full_structure := some (tw ++ subst) }, none)
    | none => (s, some "Tower needs to be processed before!")
  | none => (s, some "Substructure needs to be processed before!")

/-! ## The per-OWT processing pipeline -/

/-- `index.str.contains(pat)` for the literal patterns used by the code
("tw", "tp", "mp", "TW", "TP", "MP", "RNA", "grout" - none of them
contains a regex metacharacter): substring containment. -/
def strContains (s pat : String) : Bool :=
  (s.splitOn pat).length != 1

/-- Python `dict` lookup (`d[k]`/`k in d`) for a dict built with
`dict(zip(keys, values))`: on duplicate keys the last binding wins. -/
def alookup {α : Type} (l : List (String × α)) (k : String) : Option α :=
  (l.reverse.find? (fun p => p.1 = k)).map (·.2)

/-- A row of the `set_df_structure` output: the selected subassembly
columns "OD", "height", "mass", "volume", "wall_thickness", "x", "y",
"z" plus the computed "Elevation from [mLAT]" / "Elevation to [mLAT]". -/
structure StructRow where
  od : ODRep
  height : Option ℚ
  mass : Option ℚ
  volume : Option ℚ
  wall : Option ℚ
  x : ℚ
  y : ℚ
  z : ℚ
  elev_from : Option ℚ
  elev_to : Option ℚ
deriving DecidableEq, Repr

/-- `OWT.set_df_structure` (processing.py:214-280): selects the rows of
the per-kind subassembly frame whose title contains the index (for "tp"
additionally excluding "grout" rows), anchors the elevations at
`tower_base` ("tw"), `tower_base` minus the summed height ("tp"), or
`pile_head` minus the summed height ("mp", storing the derived toe in
`pile_toe`), and rounds both elevation columns to mm.  An unknown index
raises; `None` reference elevations make the float arithmetic raise
`TypeError`. -/
def setDfStructure (s : OWTState) (idx : String) :
    OWTState × Except String (List StructRow) :=
  let mk (base : ℚ) (r : BBDictRow) : StructRow :=
    let depth_to := base + r.z * (1 / 1000)
    { od := r.od, height := r.height, mass := r.mass, volume := r.volume,
      wall := r.wall, x := r.x, y := r.y, z := r.z,
      elev_from := r.height.map (fun h => roundTo 3 (depth_to + h * (1 / 1000))),
      elev_to := some (roundTo 3 depth_to) }
  if idx = "tw" then
    match s.tw_sub_assemblies with
    | none => (s, .error "Tower subassembly data not found.")
    | some rows =>
      let sel := rows.filter (fun r => strContains r.title idx)
      match s.tower_base with
      | none => (s, .error "TypeError: addition of NoneType and float")
      | some tb => (s, .ok (sel.map (mk tb)))
  else if idx = "tp" then
    match s.tp_sub_assemblies with
    | none => (s, .error "Transition piece subassembly data not found.")
    | some rows =>
      -- We don't take into account the grout, this element will be modelled
      -- as a distributed lumped mass.
      let sel := rows.filter (fun r =>
        strContains r.title idx && !strContains r.title "grout")
      match s.tower_base with
      | none => (s, .error "TypeError: subtraction of NoneType and float")
      | some tb =>
        let bottom_tp := tb - osum (sel.map (·.height)) * (1 / 1000)
        (s, .ok (sel.map (mk bottom_tp)))
  else if idx = "mp" then
    match s.mp_sub_assemblies with
    | none => (s, .error "Monopile subassembly data not found.")
    | some rows =>
      let sel := rows.filter (fun r => strContains r.title idx)
      match s.pile_head with
      | none => (s, .error "TypeError: subtraction of NoneType and float")
      | some ph =>
        let toe := ph - osum (sel.map (·.height)) * (1 / 1000)
        ({ s with pile_toe := some (roundTo 3 toe) }, .ok (sel.map (mk toe)))
  else (s, .error "Unknown index.")

/-- The `d.split("/", 1)` decoding of the "OD" column in
`process_structure_geometry`: `d_to` is the part before the slash (the
bottom diameter), `d_from` the part after it when present; the empty
string of a non-tubular row makes `float` raise. -/
def odSplit : ODRep → Option (ℚ × ℚ)
  | .empty => none
  | .single d => some (d, d)
  | .double b t => some (b, t)

/-- `OWT.process_structure_geometry` (processing.py:282-327): the
`set_df_structure` rows with unit-normalised engineering columns -
diameters from the "OD" string (mm → m), mass in tonnes, height in m,
`rho = mass/height`, and the fixed 210 GPa / 0.3 material constants. -/
def processStructureGeometry (s : OWTState) (idx : String) :
    OWTState × Except String (List CanRow) :=
  match setDfStructure s idx with
  | (s1, .error e) => (s1, .error e)
  | (s1, .ok rows) =>
    (s1, rows.mapM (fun r =>
      match odSplit r.od with
      | none => .error "ValueError: could not convert string to float"
      | some (d_to, d_from) =>
        .ok { elev_from := r.elev_from, elev_to := r.elev_to,
              height_m := r.height.map (· * (1 / 1000)),
              diam_from := some (d_from * (1 / 1000)),
              diam_to := some (d_to * (1 / 1000)),
              volume := r.volume, wall := r.wall,
              youngs := some 210, poissons := some (3 / 10),
              mass_t := r.mass.map (· * (1 / 1000)),
              rho := odiv r.mass r.height }))

/-- `OWT.process_rna` (processing.py:329-371): the tower-frame rows
whose title contains "RNA", with the moment-of-inertia dict unpacked
(×1e-3, raising `TypeError` on the `None` entries of a non-lumped row),
masses in tonnes and `Z` anchored at `tower_base`. -/
def processRna (s : OWTState) : OWTState × Option String :=
  match s.tw_sub_assemblies with
  | none => (s, some "Tower subassembly data not found.")
  | some rows =>
    let sel := rows.filter (fun r => strContains r.title "RNA")
    match sel.mapM (fun r => r.moi) with
    | none => (s, some "TypeError: multiplication of NoneType and float")
    | some _ =>
      match s.tower_base with
      | none => (s, some "TypeError: addition of NoneType and float")
      | some tb =>
        ({ s with rna := some (sel.map (fun r =>
            { x_m := some (r.x * (1 / 1000)), y_m := some (r.y * (1 / 1000)),
              z_mlat := some (tb + r.z * (1 / 1000)),
              mass_t := r.mass.map (· * (1 / 1000)),
              ixx := r.moi.map (fun m => m.1 * (1 / 1000)),
              iyy := r.moi.map (fun m => m.2.1 * (1 / 1000)),
              izz := r.moi.map (fun m => m.2.2 * (1 / 1000)),
              description := r.description })) }, none)

/-- A row of the `set_df_appurtenances` output: the "mass", "x", "y",
"z", "description" columns plus the computed "Z [mLAT]". -/
structure ApRow where
  mass : Option ℚ
  x : ℚ
  y : ℚ
  z : ℚ
  description : String
  z_mlat : Option ℚ
deriving DecidableEq, Repr

/-- `OWT.set_df_appurtenances` (processing.py:373-426): concentrated
(lumped) masses of a structural kind; for "TP"/"MP" only the rows with
a null height (lumped masses have `None` height), anchored at
`tower_base` ("TW"), the TP subassembly position ("TP") or `pile_toe`
("MP").  An unknown index raises. -/
def setDfAppurtenances (s : OWTState) (idx : String) :
    Except String (List ApRow) :=
  let mk (base : ℚ) (r : BBDictRow) : ApRow :=
    { mass := r.mass, x := r.x, y := r.y, z := r.z,
      description := r.description,
      z_mlat := some (base + r.z * (1 / 1000)) }
  if idx = "TW" then
    match s.tw_sub_assemblies with
    | none => .error "Tower subassembly data not found."
    | some rows =>
      let sel := rows.filter (fun r => strContains r.title idx)
      match s.tower_base with
      | none => .error "TypeError: addition of NoneType and float"
      | some tb => .ok (sel.map (mk tb))
  else if idx = "TP" then
    match s.tp_sub_assemblies with
    | none => .error "Transition piece subassembly data not found."
    | some rows =>
      -- Lumped masses have None height whereas distributed masses present
      -- not None values
      let sel := (rows.filter (fun r => strContains r.title idx)).filter
        (fun r => r.height.isNone)
      match alookup s.sub_assemblies "TP" with
      | none => .error "KeyError: TP"
      | some sa =>
        let bottom := sa.pos_z * (1 / 1000)
        .ok (sel.map (mk bottom))
  else if idx = "MP" then
    match s.mp_sub_assemblies with
    | none => .error "Monopile subassembly data not found."
    | some rows =>
      let sel := (rows.filter (fun r => strContains r.title idx)).filter
        (fun r => r.height.isNone)
      match s.pile_toe with
      | none => .error "TypeError: addition of NoneType and float"
      | some toe => .ok (sel.map (mk toe))
  else .error "Unknown index."

/-- `OWT.process_lumped_masses` (processing.py:428-454): the
appurtenance rows in engineering units. -/
def processLumpedMasses (s : OWTState) (idx : String) :
    Except String (List LumpRow) :=
  (setDfAppurtenances s idx).map (fun rows => rows.map (fun r =>
    { x_m := some (r.x * (1 / 1000)), y_m := some (r.y * (1 / 1000)),
      z_mlat := r.z_mlat, mass_t := r.mass.map (· * (1 / 1000)),
      description := r.description }))

/-- A row of the `set_df_distributed_appurtenances` output: the "mass",
"x", "y", "z", "height", "volume", "description" columns plus the
computed "Z [mLAT]". -/
structure DApRow where
  mass : Option ℚ
  x : ℚ
  y : ℚ
  z : ℚ
  height : Option ℚ
  volume : Option ℚ
  description : String
  z_mlat : Option ℚ
deriving DecidableEq, Repr

/-- `OWT.set_df_distributed_appurtenances` (processing.py:456-515):
distributed lumped masses (rows with a non-null height) of "TP", "MP"
or "grout", anchored at the TP bottom (`tower_base` minus the first
full-frame row's local z) or at `pile_toe`.  Any other index raises. -/
def setDfDistributedAppurtenances (s : OWTState) (idx : String) :
    Except String (List DApRow) :=
  let mk (base : ℚ) (r : BBDictRow) : DApRow :=
    { mass := r.mass, x := r.x, y := r.y, z := r.z, height := r.height,
      volume := r.volume, description := r.description,
      z_mlat := some (base + r.z * (1 / 1000)) }
  if idx = "TP" ∨ idx = "grout" then
    match s.tp_sub_assemblies with
    | none => .error "Transition piece subassembly data not found."
    | some rows =>
      let sel := (rows.filter (fun r => strContains r.title idx)).filter
        (fun r => r.height.isSome)
      match rows with
      | [] => .error "IndexError: index 0 is out of bounds"
      | r0 :: _ =>
        match s.tower_base with
        | none => .error "TypeError: subtraction of NoneType and float"
        | some tb =>
          let bottom_tp := tb - r0.z * (1 / 1000)
          .ok (sel.map (mk bottom_tp))
  else if idx = "MP" then
    match s.mp_sub_assemblies with
    | none => .error "Monopile subassembly data not found."
    | some rows =>
      let sel := (rows.filter (fun r => strContains r.title idx)).filter
        (fun r => r.height.isSome)
      match s.pile_toe with
      | none => .error "TypeError: addition of NoneType and float"
      | some toe => .ok (sel.map (mk toe))
  else .error "Unknown index or non distributed lumped masses located outside the transition piece."

/-- `OWT.process_distributed_lumped_masses` (processing.py:517-553):
the distributed-appurtenance rows in engineering units. -/
def processDistributedLumpedMasses (s : OWTState) (idx : String) :
    Except String (List DistRow) :=
  (setDfDistributedAppurtenances s idx).map (fun rows => rows.map (fun r =>
    { x_m := some (r.x * (1 / 1000)), y_m := some (r.y * (1 / 1000)),
      z_mlat := r.z_mlat, height_m := r.height.map (· * (1 / 1000)),
      mass_t := r.mass.map (· * (1 / 1000)), volume := r.volume,
      description := r.description }))

/-- `OWT.process_structure` (processing.py:555-648): sets the processed
flag, then fills the derived tables for the requested option ("full",
"TW", "TP" or "MP"); the `if`/`elif` chain has NO final `else`, so any
other option falls through silently (only the flag is set).  A raise in
a sub-step keeps the tables already assigned. -/
def processStructure (s : OWTState) (option : String) : OWTState × Option String :=
  let s := { s with init_proc := true }
  if option = "full" then
    match processRna s with
    | (s, some e) => (s, some e)
    | (s, none) =>
    match processStructureGeometry s "tw" with
    | (s, .error e) => (s, some e)
    | (s, .ok df) =>
    let s := { s with tower := some df }
    match processStructureGeometry s "tp" with
    | (s, .error e) => (s, some e)
    | (s, .ok df) =>
    let s := { s with transition_piece := some df }
    match processStructureGeometry s "mp" with
    | (s, .error e) => (s, some e)
    | (s, .ok df) =>
    let s := { s with monopile := some df }
    match processLumpedMasses s "TW" with
    | .error e => (s, some e)
    | .ok df =>
    let s := { s with tw_lumped_mass := some df }
    match processLumpedMasses s "TP" with
    | .error e => (s, some e)
    | .ok df =>
    let s := { s with tp_lumped_mass := some df }
    match processLumpedMasses s "MP" with
    | .error e => (s, some e)
    | .ok df =>
    let s := { s with mp_lumped_mass := some df }
    match processDistributedLumpedMasses s "TP" with
    | .error e => (s, some e)
    | .ok df =>
    let s := { s with tp_distributed_mass := some df }
    match processDistributedLumpedMasses s "MP" with
    | .error e => (s, some e)
    | .ok df =>
    let s := { s with mp_distributed_mass := some df }
    match processDistributedLumpedMasses s "grout" with
    | .error e => (s, some e)
    | .ok df => ({ s with grout := some df }, none)
  else if option = "TW" then
    match processRna s with
    | (s, some e) => (s, some e)
    | (s, none) =>
    match processStructureGeometry s "tw" with
    | (s, .error e) => (s, some e)
    | (s, .ok df) =>
    let s := { s with tower := some df }
    match processLumpedMasses s "TW" with
    | .error e => (s, some e)
    | .ok df => ({ s with tw_lumped_mass := some df }, none)
  else if option = "TP" then
    match processStructureGeometry s "tp" with
    | (s, .error e) => (s, some e)
    | (s, .ok df) =>
    let s := { s with transition_piece := some df }
    match processLumpedMasses s "TP" with
    | .error e => (s, some e)
    | .ok df =>
    let s := { s with tp_lumped_mass := some df }
    match processDistributedLumpedMasses s "TP" with
    | .error e => (s, some e)
    | .ok df =>
    let s := { s with tp_distributed_mass := some df }
    match processDistributedLumpedMasses s "grout" with
    | .error e => (s, some e)
    | .ok df => ({ s with grout := some df }, none)
  else if option = "MP" then
    match processStructureGeometry s "mp" with
    | (s, .error e) => (s, some e)
    | (s, .ok df) =>
    let s := { s with monopile := some df }
    match processLumpedMasses s "MP" with
    | .error e => (s, some e)
    | .ok df =>
    let s := { s with mp_lumped_mass := some df }
    match processDistributedLumpedMasses s "MP" with
    | .error e => (s, some e)
    | .ok df => ({ s with mp_distributed_mass := some df }, none)
  else (s, none)

/-- `OWT.extend_dfs` (processing.py:929-987): tags every non-null
derived table with its owning structural kind via the attribute-name
substring checks of the `ATTR_PROC` loop (`pile_toe` matches none of
them and stays untagged), then runs the joint assembly when both TP and
MP subassemblies exist (else only flags the stage and nulls `tp_skirt`)
and the full-structure assembly when a tower subassembly exists and a
substructure is available (else nulls `full_structure`). -/
def extendDfs (s : OWTState) : OWTState × Option String :=
  let tagC (o : Option (List CanRow)) (t : String) : Option (List CanRow) :=
    o.map (fun l => l.map (fun r => { r with sub := some t }))
  let tagL (o : Option (List LumpRow)) (t : String) : Option (List LumpRow) :=
    o.map (fun l => l.map (fun r => { r with sub := some t }))
  let tagD (o : Option (List DistRow)) (t : String) : Option (List DistRow) :=
    o.map (fun l => l.map (fun r => { r with sub := some t }))
  let tagR (o : Option (List RnaRow)) (t : String) : Option (List RnaRow) :=
    o.map (fun l => l.map (fun r => { r with sub := some t }))
  let s := { s with
    rna := tagR s.rna "TW", tower := tagC s.tower "TW",
    tw_lumped_mass := tagL s.tw_lumped_mass "TW",
    transition_piece := tagC s.transition_piece "TP",
    tp_lumped_mass := tagL s.tp_lumped_mass "TP",
    tp_distributed_mass := tagD s.tp_distributed_mass "TP",
    grout := tagD s.grout "TP",
    monopile := tagC s.monopile "MP",
    mp_lumped_mass := tagL s.mp_lumped_mass "MP",
    mp_distributed_mass := tagD s.mp_distributed_mass "MP" }
  let step1 : OWTState × Option String :=
    if (alookup s.sub_assemblies "TP").isSome ∧ (alookup s.sub_assemblies "MP").isSome then
      assemblyTpMp s
    else
      ({ s with init_spec_part := true, tp_skirt := none }, none)
  match step1 with
  | (s, some e) => (s, some e)
  | (s, none) =>
    if (alookup s.sub_assemblies "TW").isSome then
      let s := { s with init_spec_full := true }
      if s.substructure.isSome then assemblyFullStructure s
      else ({ s with full_structure := none }, none)
    else ({ s with full_structure := none, init_spec_full := true }, none)

/-! ## The fleet engine (`OWTs`) -/

/-- `ATTR_PROC` (processing.py:20-32). -/
def ATTR_PROC : List String :=
  ["pile_toe", "rna", "tower", "transition_piece", "monopile",
   "tw_lumped_mass", "tp_lumped_mass", "mp_lumped_mass",
   "tp_distributed_mass", "mp_distributed_mass", "grout"]

/-- `ATTR_SPEC` (processing.py:33). -/
def ATTR_SPEC : List String := ["full_structure", "tp_skirt", "substructure"]

/-- `ATTR_FULL` (processing.py:34-39). -/
def ATTR_FULL : List String :=
  ["all_tubular_structures", "all_distributed_mass", "all_lumped_mass",
   "all_turbines"]

/-- A fleet-table attribute of `OWTs`: initialised to a Python list
used as an accumulator of per-turbine frames (`acc`), turned into a
single dataframe or `None` by `_concat_list` (`done`). -/
inductive FTab (α : Type)
  | acc (l : List (Option (List α)))
  | done (o : Option (List α))
deriving DecidableEq, Repr

/-- `list.append(v)` on a fleet-table attribute; after `_concat_list`
the attribute is a dataframe or `None`, on which `.append` raises
`AttributeError`. -/
def FTab.push {α : Type} : FTab α → Option (List α) → Except String (FTab α)
  | .acc l, v => .ok (.acc (l ++ [v]))
  | .done _, _ => .error "AttributeError: object has no attribute append"

/-- `list.extend(vs)` on a fleet-table attribute. -/
def FTab.pushAll {α : Type} : FTab α → List (Option (List α)) → Except String (FTab α)
  | .acc l, vs => .ok (.acc (l ++ vs))
  | .done _, _ => .error "AttributeError: object has no attribute extend"

/-- The `pd.concat` of `OWTs._concat_list` (processing.py:1168-1200):
the accumulated list becomes `None` when it is empty or all entries are
`None`, else the concatenation of its non-`None` entries (`pd.concat`
drops `None` list members). -/
def concatOpt {α : Type} (l : List (Option (List α))) : Option (List α) :=
  if l.all Option.isNone then none else some (l.filterMap id).flatten

/-- One attribute step of `_concat_list`: an accumulator is
concatenated; a `None` left over from an earlier run stays `None`
(`attr_val is None` branch); a dataframe makes the `attr_val == []`
comparison raise. -/
def FTab.concatStep {α : Type} : FTab α → Except String (FTab α)
  | .acc l => .ok (.done (concatOpt l))
  | .done none => .ok (.done none)
  | .done (some _) => .error "ValueError: comparison of DataFrame and list"

/-- A row of the `all_turbines` fleet summary frame
(`OWTs._assembly_turbine`): "Turbine name", "Water depth [m]",
"Monopile toe [m]", "Monopile head [m]", "Tower base [m]", and the
per-category height/mass totals. -/
structure TurbRow where
  name : String
  water_depth : ℚ
  toe : Option ℚ
  head : Option ℚ
  base : Option ℚ
  mp_height : Option ℚ
  mp_mass : Option ℚ
  tp_height : Option ℚ
  tp_mass : Option ℚ
  tw_height : Option ℚ
  tw_mass : Option ℚ
  rna_mass : Option ℚ
deriving DecidableEq, Repr

/-- The mutable state of an `OWTs` object (processing.py:1108-1166):
the per-turbine `OWT` states keyed by title, the fan-out scalar maps,
the concatenated raw subassembly frames, and the fleet-table
attributes.  `pile_toe` starts as an accumulator list and is zipped
into a per-turbine dict by `process_structures`. -/
structure OWTsState where
  _init : Bool
  owts : List (String × OWTState)
  sub_assemblies : List (String × List (String × SAInfo))
  tower_base : List (String × Option ℚ)
  pile_head : List (String × Option ℚ)
  water_depth : List (String × ℚ)
  tw_sub_assemblies : Option (List BBDictRow)
  tp_sub_assemblies : Option (List BBDictRow)
  mp_sub_assemblies : Option (List BBDictRow)
  pile_toe : Sum (List (Option ℚ)) (List (String × Option ℚ))
  rna : FTab RnaRow
  tower : FTab CanRow
  transition_piece : FTab CanRow
  monopile : FTab CanRow
  tw_lumped_mass : FTab LumpRow
  tp_lumped_mass : FTab LumpRow
  mp_lumped_mass : FTab LumpRow
  tp_distributed_mass : FTab DistRow
  mp_distributed_mass : FTab DistRow
  grout : FTab DistRow
  full_structure : FTab CanRow
  tp_skirt : FTab CanRow
  substructure : FTab CanRow
  all_tubular_structures : FTab CanRow
  all_distributed_mass : FTab DistRow
  all_lumped_mass : FTab LumpRow
  all_turbines : FTab TurbRow
deriving DecidableEq, Repr

/-- The `rna_ = owt.rna[cols]` projection of `process_structures`: the
RNA frame restricted to the lumped-mass columns before joining
`all_lumped_mass`. -/
def rnaToLump (r : RnaRow) : LumpRow :=
  { x_m := r.x_m, y_m := r.y_m, z_mlat := r.z_mlat, mass_t := r.mass_t,
    description := r.description, sub := r.sub }

/-- The per-turbine `process_structure` dispatch of
`OWTs.process_structures` (processing.py:1374-1378): when the turbine
does not have exactly the three standard kinds, each available
subassembly key is processed individually (aborting on the first
raise); else a single full processing run. -/
def runProcessOptions (owt : OWTState) : List String → OWTState × Option String
  | [] => (owt, none)
  | k :: rest =>
    match processStructure owt k with
    | (owt, some e) => (owt, some e)
    | (owt, none) => runProcessOptions owt rest

/-- The fleet-accumulation block of the `process_structures` loop body
(processing.py:1380-1419): appends the freshly processed turbine's
tables to each fleet accumulator, in `attr_list` order, with the three
special cases (`pile_toe` scalar append, `all_tubular_structures` /
`all_distributed_mass` / `all_lumped_mass` extends). -/
def fleetAccum (S : OWTsState) (owt : OWTState) : OWTsState × Option String :=
  match S.pile_toe with
  | .inr _ => (S, some "AttributeError: dict object has no attribute append")
  | .inl pts =>
  let S := { S with pile_toe := .inl (pts ++ [owt.pile_toe]) }
  match S.rna.push owt.rna with
  | .error e => (S, some e)
  | .ok t =>
  let S := { S with rna := t }
  match S.tower.push owt.tower with
  | .error e => (S, some e)
  | .ok t =>
  let S := { S with tower := t }
  match S.transition_piece.push owt.transition_piece with
  | .error e => (S, some e)
  | .ok t =>
  let S := { S with transition_piece := t }
  match S.monopile.push owt.monopile with
  | .error e => (S, some e)
  | .ok t =>
  let S := { S with monopile := t }
  match S.tw_lumped_mass.push owt.tw_lumped_mass with
  | .error e => (S, some e)
  | .ok t =>
  let S := { S with tw_lumped_mass := t }
  match S.tp_lumped_mass.push owt.tp_lumped_mass with
  | .error e => (S, some e)
  | .ok t =>
  let S := { S with tp_lumped_mass := t }
  match S.mp_lumped_mass.push owt.mp_lumped_mass with
  | .error e => (S, some e)
  | .ok t =>
  let S := { S with mp_lumped_mass := t }
  match S.tp_distributed_mass.push owt.tp_distributed_mass with
  | .error e => (S, some e)
  | .ok t =>
  let S := { S with tp_distributed_mass := t }
  match S.mp_distributed_mass.push owt.mp_distributed_mass with
  | .error e => (S, some e)
  | .ok t =>
  let S := { S with mp_distributed_mass := t }
  match S.grout.push owt.grout with
  | .error e => (S, some e)
  | .ok t =>
  let S := { S with grout := t }
  match S.full_structure.push owt.full_structure with
  | .error e => (S, some e)
  | .ok t =>
  let S := { S with full_structure := t }
  match S.tp_skirt.push owt.tp_skirt with
  | .error e => (S, some e)
  | .ok t =>
  let S := { S with tp_skirt := t }
  match S.substructure.push owt.substructure with
  | .error e => (S, some e)
  | .ok t =>
  let S := { S with substructure := t }
  match S.all_tubular_structures.pushAll [owt.tower, owt.transition_piece, owt.monopile] with
  | .error e => (S, some e)
  | .ok t =>
  let S := { S with all_tubular_structures := t }
  match S.all_distributed_mass.pushAll
      [owt.tp_distributed_mass, owt.grout, owt.mp_distributed_mass] with
  | .error e => (S, some e)
  | .ok t =>
  let S := { S with all_distributed_mass := t }
  let rna_ := owt.rna.map (fun l => l.map rnaToLump)
  match S.all_lumped_mass.pushAll
      [rna_, owt.tw_lumped_mass, owt.tp_lumped_mass, owt.mp_lumped_mass] with
  | .error e => (S, some e)
  | .ok t => ({ S with all_lumped_mass := t }, none)

/-- The per-turbine loop of `OWTs.process_structures`
(processing.py:1373-1419): processes each `OWT` in place (the turbine
objects held by `owts` are mutated), runs `extend_dfs`, then
accumulates; the whole fleet run aborts on the first per-turbine
raise, keeping the mutations made so far. -/
def fleetLoop (S : OWTsState) (done : List (String × OWTState)) :
    List (String × OWTState) → OWTsState × Option String
  | [] => ({ S with owts := done }, none)
  | (k, owt) :: rest =>
    let (owt, e) :=
      if owt.sub_assemblies.length ≠ 3 then
        runProcessOptions owt (owt.sub_assemblies.map (·.1))
      else processStructure owt "full"
    match e with
    | some e => ({ S with owts := done ++ [(k, owt)] ++ rest }, some e)
    | none =>
      let (owt, e) := extendDfs owt
      match e with
      | some e => ({ S with owts := done ++ [(k, owt)] ++ rest }, some e)
      | none =>
        match fleetAccum S owt with
        | (S, some e) => ({ S with owts := done ++ [(k, owt)] ++ rest }, some e)
        | (S, none) => fleetLoop S (done ++ [(k, owt)]) rest

/-- `dict[key]` lookup raising `KeyError` when absent. -/
def dlookup {α : Type} (l : List (String × α)) (k : String) : Except String α :=
  match alookup l k with
  | some v => .ok v
  | none => .error "KeyError"

/-- "Mass [t]" column total of a frame holding can rows (skipna). -/
def sumMassCan (l : List CanRow) : ℚ := osum (l.map (·.mass_t))

/-- "Height [m]" column total of a frame holding can rows (skipna). -/
def sumHeightCan (l : List CanRow) : ℚ := osum (l.map (·.height_m))

/-- The per-turbine summary row of `OWTs._assembly_turbine`
(processing.py:1272-1314): scalar references plus per-category totals;
a populated can table whose companion mass tables are still `None`
makes the `None["Mass [t]"]` subscript raise `TypeError`. -/
def turbineRow (S : OWTsState) (k : String) (owt : OWTState) :
    Except String TurbRow := do
  let wd ← dlookup S.water_depth k
  let toe ← match S.pile_toe with
    | .inl _ => Except.error "TypeError: list indices must be integers"
    | .inr m => dlookup m k
  let head ← dlookup S.pile_head k
  let base ← dlookup S.tower_base k
  let mp_height := owt.monopile.map sumHeightCan
  let mp_mass ← match owt.monopile with
    | none => Except.ok (none : Option ℚ)
    | some t =>
      match owt.mp_distributed_mass, owt.mp_lumped_mass with
      | some d, some lm =>
        Except.ok (some (sumMassCan t + osum (d.map (·.mass_t)) + osum (lm.map (·.mass_t))))
      | _, _ => Except.error "TypeError: NoneType object is not subscriptable"
  let tp_height := owt.transition_piece.map sumHeightCan
  let tp_mass ← match owt.transition_piece with
    | none => Except.ok (none : Option ℚ)
    | some t =>
      match owt.tp_distributed_mass, owt.tp_lumped_mass, owt.grout with
      | some d, some lm, some g =>
        Except.ok (some (sumMassCan t + osum (d.map (·.mass_t)) + osum (lm.map (·.mass_t))
          + osum (g.map (·.mass_t))))
      | _, _, _ => Except.error "TypeError: NoneType object is not subscriptable"
  let tw_height := owt.tower.map sumHeightCan
  let tw_mass ← match owt.tower with
    | none => Except.ok (none : Option ℚ)
    | some t =>
      match owt.tw_lumped_mass with
      | some lm => Except.ok (some (sumMassCan t + osum (lm.map (·.mass_t))))
      | none => Except.error "TypeError: NoneType object is not subscriptable"
  let rna_mass := owt.rna.map (fun l => osum (l.map (·.mass_t)))
  return { name := k, water_depth := wd, toe := toe, head := head, base := base,
           mp_height := mp_height, mp_mass := mp_mass,
           tp_height := tp_height, tp_mass := tp_mass,
           tw_height := tw_height, tw_mass := tw_mass, rna_mass := rna_mass }

/-- `df.round(2)` on a summary row: every numeric cell rounded
half-to-even at two decimals, the name untouched, missing cells kept. -/
def TurbRow.round2 (r : TurbRow) : TurbRow :=
  { name := r.name, water_depth := roundTo 2 r.water_depth,
    toe := r.toe.map (roundTo 2), head := r.head.map (roundTo 2),
    base := r.base.map (roundTo 2),
    mp_height := r.mp_height.map (roundTo 2), mp_mass := r.mp_mass.map (roundTo 2),
    tp_height := r.tp_height.map (roundTo 2), tp_mass := r.tp_mass.map (roundTo 2),
    tw_height := r.tw_height.map (roundTo 2), tw_mass := r.tw_mass.map (roundTo 2),
    rna_mass := r.rna_mass.map (roundTo 2) }

/-- `OWTs._assembly_turbine` (processing.py:1202-1316): the fleet
summary table, one row per turbine, rounded to two decimals.  (The
leading read-only loop over `ATTR_PROC` has no effect and is omitted.) -/
def assemblyTurbine (S : OWTsState) : OWTsState × Option String :=
  match S.owts.mapM (fun kv => turbineRow S kv.1 kv.2) with
  | .error e => (S, some e)
  | .ok rows => ({ S with all_turbines := .done (some (rows.map TurbRow.round2)) }, none)

/-- `OWTs._concat_list` over the `process_structures` attribute list
(every fleet attribute except `all_turbines` and `pile_toe`), aborting
on the first raise. -/
def concatAll (S : OWTsState) : OWTsState × Option String :=
  match S.rna.concatStep with
  | .error e => (S, some e)
  | .ok t =>
  let S := { S with rna := t }
  match S.tower.concatStep with
  | .error e => (S, some e)
  | .ok t =>
  let S := { S with tower := t }
  match S.transition_piece.concatStep with
  | .error e => (S, some e)
  | .ok t =>
  let S := { S with transition_piece := t }
  match S.monopile.concatStep with
  | .error e => (S, some e)
  | .ok t =>
  let S := { S with monopile := t }
  match S.tw_lumped_mass.concatStep with
  | .error e => (S, some e)
  | .ok t =>
  let S := { S with tw_lumped_mass := t }
  match S.tp_lumped_mass.concatStep with
  | .error e => (S, some e)
  | .ok t =>
  let S := { S with tp_lumped_mass := t }
  match S.mp_lumped_mass.concatStep with
  | .error e => (S, some e)
  | .ok t =>
  let S := { S with mp_lumped_mass := t }
  match S.tp_distributed_mass.concatStep with
  | .error e => (S, some e)
  | .ok t =>
  let S := { S with tp_distributed_mass := t }
  match S.mp_distributed_mass.concatStep with
  | .error e => (S, some e)
  | .ok t =>
  let S := { S with mp_distributed_mass := t }
  match S.grout.concatStep with
  | .error e => (S, some e)
  | .ok t =>
  let S := { S with grout := t }
  match S.full_structure.concatStep with
  | .error e => (S, some e)
  | .ok t =>
  let S := { S with full_structure := t }
  match S.tp_skirt.concatStep with
  | .error e => (S, some e)
  | .ok t =>
  let S := { S with tp_skirt := t }
  match S.substructure.concatStep with
  | .error e => (S, some e)
  | .ok t =>
  let S := { S with substructure := t }
  match S.all_tubular_structures.concatStep with
  | .error e => (S, some e)
  | .ok t =>
  let S := { S with all_tubular_structures := t }
  match S.all_distributed_mass.concatStep with
  | .error e => (S, some e)
  | .ok t =>
  let S := { S with all_distributed_mass := t }
  match S.all_lumped_mass.concatStep with
  | .error e => (S, some e)
  | .ok t => ({ S with all_lumped_mass := t }, none)

/-- `OWTs.process_structures` (processing.py:1318-1423): returns
immediately when `_init` is already set; otherwise sets the flag, runs
the per-turbine loop, zips the accumulated `pile_toe` list into a dict
keyed by turbine title, concatenates every fleet accumulator (except
`all_turbines` and `pile_toe`) and builds the summary table. -/
def processStructures (S : OWTsState) : OWTsState × Option String :=
  if S._init then (S, none)
  else
    let S := { S with _init := true }
    match fleetLoop S [] S.owts with
    | (S, some e) => (S, some e)
    | (S, none) =>
      match S.pile_toe with
      | .inr _ => (S, some "TypeError: zip of dict values")
      | .inl l =>
        let S := { S with pile_toe := .inr (List.zip (S.owts.map (·.1)) l) }
        match concatAll S with
        | (S, some e) => (S, some e)
        | (S, none) => assemblyTurbine S

/-! ## The warn-on-unprocessed-read interceptors (`__getattribute__`) -/

/-- The derived-table attribute names of a single `OWT` (the
`ATTR_PROC` and `ATTR_SPEC` slots). -/
inductive OwtAttr
  | pile_toe | rna | tower | transition_piece | monopile
  | tw_lumped_mass | tp_lumped_mass | mp_lumped_mass
  | tp_distributed_mass | mp_distributed_mass | grout
  | full_structure | tp_skirt | substructure
deriving DecidableEq, Repr

/-- The Python attribute name of an `OwtAttr`. -/
def OwtAttr.name : OwtAttr → String
  | .pile_toe => "pile_toe"
  | .rna => "rna"
  | .tower => "tower"
  | .transition_piece => "transition_piece"
  | .monopile => "monopile"
  | .tw_lumped_mass => "tw_lumped_mass"
  | .tp_lumped_mass => "tp_lumped_mass"
  | .mp_lumped_mass => "mp_lumped_mass"
  | .tp_distributed_mass => "tp_distributed_mass"
  | .mp_distributed_mass => "mp_distributed_mass"
  | .grout => "grout"
  | .full_structure => "full_structure"
  | .tp_skirt => "tp_skirt"
  | .substructure => "substructure"

/-- The heterogeneous value stored in a derived-table slot of an
`OWT`. -/
inductive DVal
  | num (o : Option ℚ)
  | canTab (o : Option (List CanRow))
  | lumpTab (o : Option (List LumpRow))
  | distTab (o : Option (List DistRow))
  | rnaTab (o : Option (List RnaRow))
deriving DecidableEq, Repr

/-- `object.__getattribute__(self, name)` for a derived-table slot of
an `OWT`: the value currently stored. -/
def getOwtAttr (s : OWTState) : OwtAttr → DVal
  | .pile_toe => .num s.pile_toe
  | .rna => .rnaTab s.rna
  | .tower => .canTab s.tower
  | .transition_piece => .canTab s.transition_piece
  | .monopile => .canTab s.monopile
  | .tw_lumped_mass => .lumpTab s.tw_lumped_mass
  | .tp_lumped_mass => .lumpTab s.tp_lumped_mass
  | .mp_lumped_mass => .lumpTab s.mp_lumped_mass
  | .tp_distributed_mass => .distTab s.tp_distributed_mass
  | .mp_distributed_mass => .distTab s.mp_distributed_mass
  | .grout => .distTab s.grout
  | .full_structure => .canTab s.full_structure
  | .tp_skirt => .canTab s.tp_skirt
  | .substructure => .canTab s.substructure

/-- `OWT.__getattribute__` (processing.py:1053-1072) on a derived
attribute: the `if`/`elif` warning chain followed by the plain
attribute lookup; returns whether a warning was emitted, the stored
value, and the (unchanged) object state - no exception is possible. -/
def readOwtAttr (s : OWTState) (a : OwtAttr) : Bool × DVal × OWTState :=
  let warn :=
    if a.name ∈ ATTR_PROC ∧ s.init_proc = false then true
    else if a.name ∈ ATTR_SPEC ∧ s.init_spec_part = false then true
    else if a.name ∈ ATTR_SPEC ∧ s.init_spec_full = false then true
    else false
  (warn, getOwtAttr s a, s)

/-- The fleet-table attribute names of an `OWTs`
(`ATTR_PROC + ATTR_SPEC + ATTR_FULL`). -/
inductive OwtsAttr
  | pile_toe | rna | tower | transition_piece | monopile
  | tw_lumped_mass | tp_lumped_mass | mp_lumped_mass
  | tp_distributed_mass | mp_distributed_mass | grout
  | full_structure | tp_skirt | substructure
  | all_tubular_structures | all_distributed_mass | all_lumped_mass
  | all_turbines
deriving DecidableEq, Repr

/-- The Python attribute name of an `OwtsAttr`. -/
def OwtsAttr.name : OwtsAttr → String
  | .pile_toe => "pile_toe"
  | .rna => "rna"
  | .tower => "tower"
  | .transition_piece => "transition_piece"
  | .monopile => "monopile"
  | .tw_lumped_mass => "tw_lumped_mass"
  | .tp_lumped_mass => "tp_lumped_mass"
  | .mp_lumped_mass => "mp_lumped_mass"
  | .tp_distributed_mass => "tp_distributed_mass"
  | .mp_distributed_mass => "mp_distributed_mass"
  | .grout => "grout"
  | .full_structure => "full_structure"
  | .tp_skirt => "tp_skirt"
  | .substructure => "substructure"
  | .all_tubular_structures => "all_tubular_structures"
  | .all_distributed_mass => "all_distributed_mass"
  | .all_lumped_mass => "all_lumped_mass"
  | .all_turbines => "all_turbines"

/-- The heterogeneous value stored in a fleet-table slot of an
`OWTs`. -/
inductive DFVal
  | pileToe (v : Sum (List (Option ℚ)) (List (String × Option ℚ)))
  | canT (t : FTab CanRow)
  | lumpT (t : FTab LumpRow)
  | distT (t : FTab DistRow)
  | rnaT (t : FTab RnaRow)
  | turbT (t : FTab TurbRow)
deriving DecidableEq, Repr

/-- `object.__getattribute__(self, name)` for a fleet-table slot of an
`OWTs`: the value currently stored. -/
def getOwtsAttr (S : OWTsState) : OwtsAttr → DFVal
  | .pile_toe => .pileToe S.pile_toe
  | .rna => .rnaT S.rna
  | .tower => .canT S.tower
  | .transition_piece => .canT S.transition_piece
  | .monopile => .canT S.monopile
  | .tw_lumped_mass => .lumpT S.tw_lumped_mass
  | .tp_lumped_mass => .lumpT S.tp_lumped_mass
  | .mp_lumped_mass => .lumpT S.mp_lumped_mass
  | .tp_distributed_mass => .distT S.tp_distributed_mass
  | .mp_distributed_mass => .distT S.mp_distributed_mass
  | .grout => .distT S.grout
  | .full_structure => .canT S.full_structure
  | .tp_skirt => .canT S.tp_skirt
  | .substructure => .canT S.substructure
  | .all_tubular_structures => .canT S.all_tubular_structures
  | .all_distributed_mass => .distT S.all_distributed_mass
  | .all_lumped_mass => .lumpT S.all_lumped_mass
  | .all_turbines => .turbT S.all_turbines

/-- `OWTs.__getattribute__` (processing.py:1485-1492) on a fleet-table
attribute: warn when `_init` is not yet set, then the plain lookup;
returns the warning flag, the stored value and the unchanged state. -/
def readOwtsAttr (S : OWTsState) (a : OwtsAttr) : Bool × DFVal × OWTsState :=
  let warn :=
    if a.name ∈ ATTR_PROC ++ ATTR_SPEC ++ ATTR_FULL ∧ S._init = false then true
    else false
  (warn, getOwtsAttr S a, S)

/-! ## `BuildingBlock` / `SubAssembly` objects and the OWT constructor
elevation logic -/

/-- `Material` (structures.py:101-169); `poisson_r` models the source
field `poisson` + `ratio`. -/
structure Material where
  title : String
  description : String
  density : ℚ
  poisson_r : ℚ
  young_modulus : ℚ
  id : ℤ
deriving DecidableEq, Repr

/-- The x/y/z part of a `Position` (structures.py:172-219); the
rotations and the reference system are never consulted by the
geometry pipeline. -/
structure PositionXYZ where
  x : ℚ
  y : ℚ
  z : ℚ
deriving DecidableEq, Repr

/-- A `BuildingBlock` object (structures.py:222-300): title, position,
resolved material (by id, `None` when unresolved) and the raw record. -/
structure BBState where
  title : String
  description : String
  position : PositionXYZ
  material : Option Material
  json : RawBB
deriving DecidableEq, Repr

/-- `json[k]` as a dataframe cell: `None` and `NaN` both become a null
cell, a key genuinely missing from the record raises `KeyError`. -/
def RawV.cellE : RawV → Except String (Option ℚ)
  | .absent => .error "KeyError"
  | .pynone => .ok none
  | .pynan => .ok none
  | .num q => .ok (some q)

/-- `BuildingBlock.height` (structures.py:401-407): the raw value when
the key exists, else `None`; as a dataframe cell `None` and `NaN`
coincide. -/
def heightCell : RawV → Option ℚ
  | .num q => some q
  | _ => none

/-- `BuildingBlock.diameter_str` (structures.py:385-399): "bottom/top"
when both diameters are truthy, non-NaN and different, the single
rounded value when equal, the empty string otherwise (also for
non-tubular blocks, whose diameter properties return `None`). -/
def diameterStr (b : BBState) : Except String ODRep :=
  match bbType b.json with
  | .error e => .error e
  | .ok t =>
    if t = "tubular_section" then
      match b.json.top_outer_diameter, b.json.bottom_outer_diameter with
      | .num dt, .num db =>
        if dt ≠ 0 ∧ db ≠ 0 then
          .ok (if dt ≠ db then .double (roundEven db) (roundEven dt)
               else .single (roundEven db))
        else .ok .empty
      | _, _ => .ok .empty
    else .ok .empty

/-- `BuildingBlock.wall_thickness` (structures.py:361-367). -/
def wallThicknessCell (b : BBState) : Except String (Option ℚ) :=
  match bbType b.json with
  | .error e => .error e
  | .ok t => if t = "tubular_section" then b.json.wall_thickness.cellE else .ok none

/-- `BuildingBlock.mass` (structures.py:444-505): raw mass for a lumped
mass; `round(mass_distribution × height / 1000)` for a distributed mass
(requires a truthy height); `round(volume × density, 1)` for a tubular
section (requires a material, then a truthy density - short-circuit -
and a truthy volume).  A `NaN` operand propagates to a null cell. -/
def bbMass (r : RawBB) (mat : Option Material) : Except String (Option ℚ) :=
  match bbType r with
  | .error e => .error e
  | .ok t =>
    if t = "lumped_mass" then .ok r.mass.toNum
    else if t = "distributed_mass" then
      if r.height.truthy then
        match r.mass_distribution.toNum, r.height.toNum with
        | some md, some h => .ok (some (roundEven (md * h / 1000) : ℚ))
        | _, _ => .ok none
      else .error "Height data is missing."
    else
      match mat with
      | none => .error "Material data is missing."
      | some m =>
        if m.density = 0 then .error "Density or volume data is missing."
        else
          match bbVolume r with
          | .error e => .error e
          | .ok vol =>
            -- NaN (a null cell) is truthy, 0.0 is falsy
            let volTruthy := match vol with | some v => v != 0 | none => true
            if volTruthy then .ok (vol.map (fun v => roundTo 1 (v * m.density)))
            else .error "Density or volume data is missing."

/-- `BuildingBlock.moment_of_inertia` (structures.py:507-568): the
x/y/z dict for a lumped mass, the all-`None` dict otherwise.  (A
lumped-mass dict with `NaN` entries is conflated with the all-`None`
dict; no claim distinguishes them.) -/
def bbMoi (r : RawBB) : Except String (Option (ℚ × ℚ × ℚ)) :=
  match bbType r with
  | .error e => .error e
  | .ok t =>
    if t = "lumped_mass" then
      match r.moment_of_inertia_x, r.moment_of_inertia_y, r.moment_of_inertia_z with
      | .absent, _, _ => .error "KeyError"
      | _, .absent, _ => .error "KeyError"
      | _, _, .absent => .error "KeyError"
      | .num a, .num b, .num c => .ok (some (a, b, c))
      | _, _, _ => .ok none
    else .ok none

/-- `BuildingBlock.as_dict` (structures.py:650-686): the dataframe row
of a building block; the properties are evaluated in dict-literal
order, so the first raising property aborts the row. -/
def bbAsDict (b : BBState) : Except String BBDictRow := do
  let od ← diameterStr b
  let wall ← wallThicknessCell b
  let vol ← bbVolume b.json
  let m ← bbMass b.json b.material
  let moi ← bbMoi b.json
  return { title := b.title, x := b.position.x, y := b.position.y,
           z := b.position.z, od := od, wall := wall,
           height := heightCell b.json.height, volume := vol, mass := m,
           moi := moi, description := b.description }

/-- The slice of a `SubAssembly` object used by `as_df` and the
absolute elevations: its vertical position and its (already fetched)
building blocks.  The lazy memoized API fetch of `building_blocks` is
outside the embedding; every claim operates on a subassembly whose
blocks are materialised. -/
structure SAState where
  position_z : ℚ
  bb : List BBState
deriving DecidableEq, Repr

/-- `SubAssembly.as_df` (structures.py:1044-1070): one `as_dict` row
per building block, indexed by title and sorted by local `z`
descending (insertion sort; pandas quicksort ties are not
order-relevant here).  An empty block list makes
`pd.DataFrame([]).set_index("title")` raise `KeyError`. -/
def saAsDf (sa : SAState) : Except String (List BBDictRow) := do
  if sa.bb.isEmpty then throw "KeyError: title"
  let rows ← sa.bb.mapM bbAsDict
  return rows.mergeSort (fun a b => b.z ≤ a.z)

/-- `SubAssembly.absolute_bottom` (structures.py:1072-1076): the
absolute position (m) of the last (lowest-z) row of the sorted frame. -/
def absoluteBottom (sa : SAState) : Except String ℚ := do
  let rows ← saAsDf sa
  match rows.getLast? with
  | some r => return (r.z + sa.position_z) / 1000
  | none => throw "IndexError: single positional indexer is out-of-bounds"

/-- `SubAssembly.absolute_top` (structures.py:1078-1088): after
dropping the rows with any null cell (only tubular rows survive: the
others have null wall thickness/volume), the first row's absolute
position plus its height, rounded to mm. -/
def absoluteTop (sa : SAState) : Except String ℚ := do
  let rows ← saAsDf sa
  let kept := rows.filter (fun r =>
    r.wall.isSome && r.height.isSome && r.volume.isSome && r.mass.isSome)
  match kept with
  | [] => throw "IndexError: single positional indexer is out-of-bounds"
  | r :: _ =>
    match r.height with
    | some h => return roundTo 3 ((r.z + sa.position_z) / 1000 + h / 1000)
    | none => throw "unreachable: dropna kept a null height"

/-- Python truthiness of an optional float argument (`not tower_base`):
`None` and `0.0` are falsy. -/
def optTruthy (o : Option ℚ) : Bool :=
  match o with
  | some q => q ≠ 0
  | none => false

/-- The reference-elevation logic of `OWT.__init__`
(processing.py:167-180): when either supplied elevation is falsy
(`None` or `0.0`), BOTH are discarded and re-derived - `tower_base`
from the TW subassembly's absolute bottom, else the TP subassembly's
absolute top, else `None`; `pile_head` from the MP subassembly's
absolute top, else `None`.  Otherwise the supplied pair is kept. -/
def owtSetElevations (tower_base pile_head : Option ℚ)
    (sub_assemblies : List (String × SAState)) :
    Except String (Option ℚ × Option ℚ) := do
  if !optTruthy tower_base || !optTruthy pile_head then
    let tb ←
      match alookup sub_assemblies "TW" with
      | some sa => (absoluteBottom sa).map some
      | none =>
        match alookup sub_assemblies "TP" with
        | some sa => (absoluteTop sa).map some
        | none => .ok none
    let ph ←
      match alookup sub_assemblies "MP" with
      | some sa => (absoluteTop sa).map some
      | none => .ok none
    return (tb, ph)
  else
    return (tower_base, pile_head)

/-! ## Concrete fixtures used by witnesses and counterexamples -/

/-- The can row of the spec's `can_adjust_properties` scenario:
Mass 10 t, Volume 5 m³, elevations 10 → 0 m, diameters 6 m,
wall 10 mm. -/
def doctestCanRow : CanRow :=
  { elev_from := some 10, elev_to := some 0, height_m := none,
    diam_from := some 6, diam_to := some 6, volume := some 5,
    wall := some 10, youngs := none, poissons := none,
    mass_t := some 10, rho := some 1 }

/-- The same can with a zero wall thickness: the recomputed shell
volume collapses to zero. -/
def zeroWallCanRow : CanRow :=
  { doctestCanRow with wall := some 0 }

/-- An `OWT` state as right after construction: nothing processed, all
derived tables `None`. -/
def emptyOWT : OWTState :=
  { init_proc := false, init_spec_part := false, init_spec_full := false,
    sub_assemblies := [], tw_sub_assemblies := none, tp_sub_assemblies := none,
    mp_sub_assemblies := none, tower_base := none, pile_head := none,
    water_depth := 0, pile_toe := none, rna := none, tower := none,
    transition_piece := none, monopile := none, tw_lumped_mass := none,
    tp_lumped_mass := none, mp_lumped_mass := none,
    tp_distributed_mass := none, mp_distributed_mass := none, grout := none,
    full_structure := none, tp_skirt := none, substructure := none }

/-- A can row in production orientation ("from" above "to"). -/
def mkCan (ef et dfm dto : ℚ) : CanRow :=
  { elev_from := some ef, elev_to := some et, height_m := none,
    diam_from := some dfm, diam_to := some dto, volume := some 5,
    wall := some 10, youngs := none, poissons := none,
    mass_t := some 10, rho := some 1 }

/-- Top TP can of the C2 counterexample frame: spans 9 → 7 m. -/
def c2TpA : CanRow := mkCan 9 7 6 6

/-- Boundary TP can of the C2 counterexample frame: spans 7 → 5 m,
tapered 6 → 5 m, its bottom already at the pile head. -/
def c2TpB : CanRow := mkCan 7 5 6 5

/-- Skirt TP can of the C2 counterexample frame: spans 5 → 0 m. -/
def c2TpC : CanRow := mkCan 5 0 6 6

/-- Monopile can of the C2 frames: spans 0 → −10 m. -/
def c2MpRow : CanRow := mkCan 0 (-10) 6 6

/-- The C2 counterexample state: a processed TP of three cans whose
boundary can bottoms out exactly at `pile_head = 5`, and a processed
monopile. -/
def c2CexState : OWTState :=
  { emptyOWT with transition_piece := some [c2TpA, c2TpB, c2TpC],
                  monopile := some [c2MpRow], pile_head := some 5 }

/-- First TP can of the spec scenario, elevation-from/to pair [6, 8]. -/
def specTp1 : CanRow := mkCan 6 8 6 6

/-- Second TP can of the spec scenario, elevation-from/to pair [0, 4]. -/
def specTp2 : CanRow := mkCan 0 4 6 6

/-- The spec scenario state: TP stack spanning [6,8] and [0,4], MP
stack [0,−10], `pile_head = 5.0`. -/
def specScenario : OWTState :=
  { emptyOWT with transition_piece := some [specTp1, specTp2],
                  monopile := some [c2MpRow], pile_head := some 5 }

/-- A steel material fixture. -/
def demoSteel : Material :=
  { title := "S355", description := "", density := 7850, poisson_r := 3 / 10,
    young_modulus := 210000, id := 1 }

/-- A single tubular tower can: 6000 mm diameter, 60 mm wall, 10 m
tall, at local z = 0. -/
def demoBB : BBState :=
  { title := "tw can", description := "", position := ⟨0, 0, 0⟩,
    material := some demoSteel,
    json := { bottom_outer_diameter := .num 6000, top_outer_diameter := .num 6000,
              wall_thickness := .num 60, height := .num 10000, mass := .pynan,
              mass_distribution := .pynan, volume_distribution := .pynan } }

/-- A tower subassembly holding `demoBB`, positioned at z = 15000 mm,
so its absolute bottom is 15 m. -/
def demoSA : SAState := { position_z := 15000, bb := [demoBB] }

/-! ## Shared lemmas -/

/-- Helper: `can_modification` at `position="bottom"` succeeds on a
non-empty frame, modifying the last row. -/
lemma canModification_bottom (df : List CanRow) (alt : Option ℚ) (h : df ≠ []) :
    ∃ r, df.getLast? = some r ∧
      canModification df alt "bottom" = .ok (df.dropLast ++ [canModifyRow r alt true]) := by
  cases df with
  | nil => exact absurd rfl h
  | cons a t =>
    refine ⟨t.getLast?.getD a, List.getLast?_cons, ?_⟩
    unfold canModification
    rw [if_pos rfl, List.getLast?_cons]

/-- Helper: `can_modification` at `position="top"` succeeds on a
non-empty frame, modifying the first row. -/
lemma canModification_top (df : List CanRow) (alt : Option ℚ) (h : df ≠ []) :
    ∃ r t, df = r :: t ∧
      canModification df alt "top" = .ok (canModifyRow r alt false :: t) := by
  cases df with
  | nil => exact absurd rfl h
  | cons a t => exact ⟨a, t, rfl, rfl⟩

/-- Helper: multiplying a cell by `some NV` and dividing by
`some NV` (`NV ≠ 0`) is the identity. -/
lemma odiv_omul_self (NV : ℚ) (hNV : NV ≠ 0) (d : Option ℚ) :
    odiv (omul (some NV) d) (some NV) = d := by
  cases d with
  | none => simp [omul, odiv]
  | some x =>
    simp only [omul, odiv, if_neg hNV, Option.some.injEq]
    field_simp

/-- Helper: the value of `BuildingBlock.volume` on a fully numeric
tubular record with a non-zero height. -/
lemma bbVolume_tubular (r : RawBB) (db dt w h : ℚ)
    (hb : r.bottom_outer_diameter = .num db)
    (ht : r.top_outer_diameter = .num dt)
    (hw : r.wall_thickness = .num w)
    (hh : r.height = .num h) (hne : h ≠ 0) :
    bbVolume r = .ok (some ((calcConeVolume (db / 2) (dt / 2) h
      - calcConeVolume (db / 2 - w) (dt / 2 - w) h) / 1000000000)) := by
  unfold bbVolume bbType
  simp [hb, ht, hw, hh, RawV.present, RawV.truthy, RawV.toNum, hne]

/-- Helper: the fleet accumulation block never touches `_init`. -/
lemma fleetAccum_init (S : OWTsState) (owt : OWTState) :
    ((fleetAccum S owt).1)._init = S._init := by
  dsimp only [fleetAccum]
  repeat' split
  all_goals rfl

/-- Helper: the per-turbine loop never touches `_init`. -/
lemma fleetLoop_init (l : List (String × OWTState)) (acc : List (String × OWTState))
    (S : OWTsState) : ((fleetLoop S acc l).1)._init = S._init := by
  induction l generalizing S acc with
  | nil => rfl
  | cons kv rest ih =>
    obtain ⟨k, owt⟩ := kv
    unfold fleetLoop
    rcases hpe : (if owt.sub_assemblies.length ≠ 3 then
        runProcessOptions owt (owt.sub_assemblies.map (·.1))
      else processStructure owt "full") with ⟨owt1, e1⟩
    rw [hpe]
    dsimp only
    cases e1 with
    | some e => rfl
    | none =>
      dsimp only
      rcases hex : extendDfs owt1 with ⟨owt2, e2⟩
      dsimp only
      cases e2 with
      | some e => rfl
      | none =>
        have h2 := fleetAccum_init S owt2
        rcases hfa : fleetAccum S owt2 with ⟨S2, e3⟩
        rw [hfa] at h2
        dsimp only
        cases e3 with
        | some e => exact h2
        | none =>
          dsimp only
          rw [ih]
          exact h2

/-- Helper: `_concat_list` never touches `_init`. -/
lemma concatAll_init (S : OWTsState) : ((concatAll S).1)._init = S._init := by
  dsimp only [concatAll]
  repeat' split
  all_goals rfl

/-- Helper: `_assembly_turbine` never touches `_init`. -/
lemma assemblyTurbine_init (S : OWTsState) :
    ((assemblyTurbine S).1)._init = S._init := by
  dsimp only [assemblyTurbine]
  repeat' split
  all_goals rfl

/-- Helper: after any `process_structures` call, successful or not,
`_init` is set. -/
lemma processStructures_init (S : OWTsState) :
    ((processStructures S).1)._init = true := by
  unfold processStructures
  by_cases h : S._init
  · simp [h]
  · rw [if_neg h]
    dsimp only
    split
    · rename_i S1 e heq
      have h1 := fleetLoop_init S.owts [] { S with _init := true }
      rw [heq] at h1
      exact h1
    · rename_i S1 heq
      have h1 := fleetLoop_init S.owts [] { S with _init := true }
      rw [heq] at h1
      split
      · exact h1
      · rename_i l hpt
        split
        · rename_i S2 e2 heq2
          have h2 := concatAll_init
            { S1 with pile_toe := Sum.inr (List.zip (S1.owts.map (fun x => x.1)) l) }
          rw [heq2] at h2
          exact h2.trans h1
        · rename_i S2 heq2
          have h2 := concatAll_init
            { S1 with pile_toe := Sum.inr (List.zip (S1.owts.map (fun x => x.1)) l) }
          rw [heq2] at h2
          rw [assemblyTurbine_init S2]
          exact h2.trans h1

/-! ## Claims -/

/-- C1: `BuildingBlock.type` is total and deterministic - whenever at
least one of `bottom_outer_diameter`, `mass`, `mass_distribution` is
present (non-None, non-NaN) it returns exactly one of the three kinds,
with `bottom_outer_diameter` presence taking priority over `mass`
presence taking priority over `mass_distribution` presence; with none
of the three present it raises the classification error. -/
theorem c1_type_classification (r : RawBB) :
    (r.bottom_outer_diameter.present = true → bbType r = .ok "tubular_section") ∧
    (r.bottom_outer_diameter.present = false → r.mass.present = true →
      bbType r = .ok "lumped_mass") ∧
    (r.bottom_outer_diameter.present = false → r.mass.present = false →
      r.mass_distribution.present = true → bbType r = .ok "distributed_mass") ∧
    (r.bottom_outer_diameter.present = false → r.mass.present = false →
      r.mass_distribution.present = false →
      bbType r = .error "Could not find supported building block type.") := by
  unfold bbType
  refine ⟨?_, ?_, ?_, ?_⟩ <;> intros <;> simp_all

/-- Witness for C1: a record carrying both a mass and a mass
distribution (and a `NaN` diameter) classifies as a lumped mass. -/
theorem c1_witness :
    bbType { bottom_outer_diameter := .pynan, top_outer_diameter := .pynan,
             wall_thickness := .pynan, height := .num 0, mass := .num 100,
             mass_distribution := .num 7, volume_distribution := .pynan }
      = .ok "lumped_mass" :=
  (c1_type_classification _).2.1 rfl rfl

/-- Counterexample for C4 as stated: the claim requires a
height-missing error whenever the height is not positive, but a record
with height `-1` is accepted and yields a (negative) volume - the
truthiness guard `if self.height:` only rejects an absent, `None` or
zero height. -/
theorem c4_counterexample :
    bbVolume { bottom_outer_diameter := .num 6000, top_outer_diameter := .num 6000,
               wall_thickness := .num 10, height := .num (-1), mass := .pynan,
               mass_distribution := .pynan, volume_distribution := .pynan }
      = .ok (some (-(599 * npPi) / 10000000)) := by
  have h := bbVolume_tubular
    { bottom_outer_diameter := .num 6000, top_outer_diameter := .num 6000,
      wall_thickness := .num 10, height := .num (-1), mass := .pynan,
      mass_distribution := .pynan, volume_distribution := .pynan }
    6000 6000 10 (-1) rfl rfl rfl rfl (by norm_num)
  rw [h]
  norm_num [calcConeVolume]
  ring

/-- C4 (amended): for a fully numeric tubular record,
`BuildingBlock.volume` returns the outer-minus-inner conical-frustum
volume (inner radii = outer radii − wall thickness) scaled by 1e9
whenever the height is a non-zero number, and raises the height-missing
error exactly when `self.height` is falsy (absent, `None`, or `0`) -
not for every height that fails to be positive. -/
theorem c4_tubular_volume (r : RawBB) (db dt w : ℚ)
    (hb : r.bottom_outer_diameter = .num db)
    (ht : r.top_outer_diameter = .num dt)
    (hw : r.wall_thickness = .num w) :
    (∀ h : ℚ, r.height = .num h → h ≠ 0 →
      bbVolume r = .ok (some ((calcConeVolume (db / 2) (dt / 2) h
        - calcConeVolume (db / 2 - w) (dt / 2 - w) h) / 1000000000))) ∧
    (r.height.truthy = false →
      bbVolume r = .error "Height data is missing.") := by
  constructor
  · intro h hh hne
    exact bbVolume_tubular r db dt w h hb ht hw hh hne
  · intro htr
    unfold bbVolume bbType
    simp [hb, RawV.present, htr]

/-- Witness for C4 (amended): a 6000 mm diameter, 60 mm wall, 10 m can
takes the frustum-difference value, and the same record with height 0
raises. -/
theorem c4_witness :
    bbVolume { bottom_outer_diameter := .num 6000, top_outer_diameter := .num 6000,
               wall_thickness := .num 60, height := .num 10000, mass := .pynan,
               mass_distribution := .pynan, volume_distribution := .pynan }
      = .ok (some ((calcConeVolume (6000 / 2) (6000 / 2) 10000
          - calcConeVolume (6000 / 2 - 60) (6000 / 2 - 60) 10000) / 1000000000)) ∧
    bbVolume { bottom_outer_diameter := .num 6000, top_outer_diameter := .num 6000,
               wall_thickness := .num 60, height := .num 0, mass := .pynan,
               mass_distribution := .pynan, volume_distribution := .pynan }
      = .error "Height data is missing." :=
  ⟨(c4_tubular_volume _ 6000 6000 60 rfl rfl rfl).1 10000 rfl (by norm_num),
   (c4_tubular_volume _ 6000 6000 60 rfl rfl rfl).2 rfl⟩

/-- Counterexample for C5 as stated: with height 1 > 0 and wall
thickness 10 > 0 but diameters of only 2 mm, the "inner" radii are
negative, the outer frustum is SMALLER than the inner one and the
computed volume is negative. -/
theorem c5_counterexample :
    calcConeVolume (2 / 2) (2 / 2) 1 < calcConeVolume (2 / 2 - 10) (2 / 2 - 10) 1 ∧
    bbVolume { bottom_outer_diameter := .num 2, top_outer_diameter := .num 2,
               wall_thickness := .num 10, height := .num 1, mass := .pynan,
               mass_distribution := .pynan, volume_distribution := .pynan }
      = .ok (some ((calcConeVolume (2 / 2) (2 / 2) 1
          - calcConeVolume (2 / 2 - 10) (2 / 2 - 10) 1) / 1000000000)) ∧
    (calcConeVolume (2 / 2) (2 / 2) 1
        - calcConeVolume (2 / 2 - 10) (2 / 2 - 10) 1) / 1000000000 < 0 := by
  refine ⟨by norm_num [calcConeVolume, npPi], ?_, by norm_num [calcConeVolume, npPi]⟩
  exact bbVolume_tubular
    { bottom_outer_diameter := .num 2, top_outer_diameter := .num 2,
      wall_thickness := .num 10, height := .num 1, mass := .pynan,
      mass_distribution := .pynan, volume_distribution := .pynan }
    2 2 10 1 rfl rfl rfl rfl (by norm_num)

/-- C5 (amended): for a fully numeric tubular record with positive
height, positive wall thickness AND wall thickness smaller than the sum
of the outer radii, the outer frustum volume strictly exceeds the inner
one and `BuildingBlock.volume` is non-negative. -/
theorem c5_volume_nonneg (r : RawBB) (db dt w h : ℚ)
    (hb : r.bottom_outer_diameter = .num db)
    (ht : r.top_outer_diameter = .num dt)
    (hw : r.wall_thickness = .num w)
    (hh : r.height = .num h)
    (hpos : 0 < h) (hwpos : 0 < w) (hsum : w < db / 2 + dt / 2) :
    calcConeVolume (db / 2 - w) (dt / 2 - w) h < calcConeVolume (db / 2) (dt / 2) h ∧
    bbVolume r = .ok (some ((calcConeVolume (db / 2) (dt / 2) h
      - calcConeVolume (db / 2 - w) (dt / 2 - w) h) / 1000000000)) ∧
    0 ≤ (calcConeVolume (db / 2) (dt / 2) h
      - calcConeVolume (db / 2 - w) (dt / 2 - w) h) / 1000000000 := by
  have hpi : (0 : ℚ) < npPi := by norm_num [npPi]
  have key : calcConeVolume (db / 2) (dt / 2) h
      - calcConeVolume (db / 2 - w) (dt / 2 - w) h
      = npPi * h * w * (db / 2 + dt / 2 - w) := by
    unfold calcConeVolume; ring
  have hdiff : 0 < calcConeVolume (db / 2) (dt / 2) h
      - calcConeVolume (db / 2 - w) (dt / 2 - w) h := by
    rw [key]
    have h1 : 0 < npPi * h := mul_pos hpi hpos
    have h2 : 0 < npPi * h * w := mul_pos h1 hwpos
    exact mul_pos h2 (by linarith)
  refine ⟨by linarith, bbVolume_tubular r db dt w h hb ht hw hh (by linarith), ?_⟩
  positivity

/-- Witness for C5 (amended): the 6000/60/10000 can of `c4_witness`
satisfies the hypotheses and the conclusions. -/
theorem c5_witness :
    calcConeVolume (6000 / 2 - 60) (6000 / 2 - 60) 10000
        < calcConeVolume (6000 / 2) (6000 / 2) 10000 ∧
    bbVolume { bottom_outer_diameter := .num 6000, top_outer_diameter := .num 6000,
               wall_thickness := .num 60, height := .num 10000, mass := .pynan,
               mass_distribution := .pynan, volume_distribution := .pynan }
      = .ok (some ((calcConeVolume (6000 / 2) (6000 / 2) 10000
          - calcConeVolume (6000 / 2 - 60) (6000 / 2 - 60) 10000) / 1000000000)) ∧
    0 ≤ (calcConeVolume (6000 / 2) (6000 / 2) 10000
      - calcConeVolume (6000 / 2 - 60) (6000 / 2 - 60) 10000) / 1000000000 :=
  c5_volume_nonneg _ 6000 6000 60 10000 rfl rfl rfl rfl
    (by norm_num) (by norm_num) (by norm_num)

/-- Counterexample for C3 as stated: the doctest can with a zero wall
thickness has a non-zero stored volume (5) and a non-zero recomputed
height (10), yet the recomputed volume is 0 and the recomputed
mass/volume ratio (`0/0`, NaN in floats) differs from the original
density 2 - the claim additionally needs a non-zero recomputed
volume. -/
theorem c3_counterexample :
    zeroWallCanRow.volume = some 5 ∧
    canAdjustProperties zeroWallCanRow
      = ⟨some 10, some 0, some 0, some 0⟩ ∧
    odiv (canAdjustProperties zeroWallCanRow).mass_t
        (canAdjustProperties zeroWallCanRow).volume = none ∧
    odiv zeroWallCanRow.mass_t zeroWallCanRow.volume = some 2 := by
  refine ⟨rfl, ?_, ?_, ?_⟩
  · norm_num [canAdjustProperties, zeroWallCanRow, doctestCanRow,
      odiv, omul, oadd, osub]
  · norm_num [canAdjustProperties, zeroWallCanRow, doctestCanRow,
      odiv, omul, oadd, osub]
  · norm_num [zeroWallCanRow, doctestCanRow, odiv]

/-- C3 (amended): for every can row with non-zero stored volume,
non-zero recomputed height AND non-zero recomputed volume, the row
produced by `can_adjust_properties` preserves the density
(new mass / new volume = old mass / old volume) and satisfies
rho = new mass / new height. -/
theorem c3_density_preserved (row : CanRow) (V H NV : ℚ)
    (hVol : row.volume = some V) (hVne : V ≠ 0)
    (hH : (canAdjustProperties row).height_m = some H) (hHne : H ≠ 0)
    (hNV : (canAdjustProperties row).volume = some NV) (hNVne : NV ≠ 0) :
    odiv (canAdjustProperties row).mass_t (canAdjustProperties row).volume
      = odiv row.mass_t row.volume ∧
    (canAdjustProperties row).rho
      = odiv (canAdjustProperties row).mass_t
          (canAdjustProperties row).height_m := by
  constructor
  · have key : (canAdjustProperties row).mass_t
        = omul (canAdjustProperties row).volume (odiv row.mass_t row.volume) := rfl
    rw [key, hNV]
    cases hM : row.mass_t with
    | none => simp [odiv, omul, hVol]
    | some M =>
      rw [hVol]
      simp only [odiv, if_neg hVne, omul, Option.some.injEq]
      rw [if_neg hNVne]
      field_simp
      ring
  · rfl

/-- Witness for C3: the doctest can (Mass 10, Volume 5, span 10 → 0,
diameter 6, wall 10 mm) has recomputed height 10 and recomputed volume
`599·π/1000 ≠ 0`, and the theorem applies. -/
theorem c3_witness :
    doctestCanRow.volume = some 5 ∧
    (canAdjustProperties doctestCanRow).height_m = some 10 ∧
    (canAdjustProperties doctestCanRow).volume = some (599 * npPi / 1000) ∧
    (odiv (canAdjustProperties doctestCanRow).mass_t
        (canAdjustProperties doctestCanRow).volume
      = odiv doctestCanRow.mass_t doctestCanRow.volume ∧
    (canAdjustProperties doctestCanRow).rho
      = odiv (canAdjustProperties doctestCanRow).mass_t
          (canAdjustProperties doctestCanRow).height_m) := by
  have hH : (canAdjustProperties doctestCanRow).height_m = some 10 := by
    norm_num [canAdjustProperties, doctestCanRow, odiv, omul, oadd, osub]
  have hNV : (canAdjustProperties doctestCanRow).volume = some (599 * npPi / 1000) := by
    norm_num [canAdjustProperties, doctestCanRow, odiv, omul, oadd, osub]
    ring
  have hNVne : (599 * npPi / 1000 : ℚ) ≠ 0 := by norm_num [npPi]
  exact ⟨rfl, hH, hNV,
    c3_density_preserved doctestCanRow 5 10 (599 * npPi / 1000)
      rfl (by norm_num) hH (by norm_num) hNV hNVne⟩

/-- Counterexample for C2 as stated: the claim keys the bolted-joint
check on the BOTTOM retained row, but the code checks
`df.loc[df.index[0], "Elevation to [mLAT]"]` - the FIRST retained row.
Here the bottom retained can (spanning 7 → 5, tapered 6 → 5 m) already
ends exactly at `pile_head = 5`, so by the claim no row would be
adjusted and `substructure` would be the unchanged rows plus the
monopile; the code still runs `can_modification` (the first row's
"Elevation to" is 7 ≠ 5) and rewrites the boundary can (its bottom
diameter becomes 6 m and its properties are recomputed), so the
produced `substructure` differs. -/
theorem c2_counterexample :
    ([c2TpA, c2TpB, c2TpC].filter (fun r => oGtQ r.elev_from 5) = [c2TpA, c2TpB]) ∧
    c2TpB.elev_to = some 5 ∧
    (assemblyTpMp c2CexState).1.substructure ≠ some [c2TpA, c2TpB, c2MpRow] := by
  refine ⟨by norm_num [c2TpA, c2TpB, c2TpC, mkCan, oGtQ, List.filter], rfl, ?_⟩
  norm_num [assemblyTpMp, c2CexState, c2TpA, c2TpB, c2TpC, c2MpRow, mkCan,
    emptyOWT, canModification, canModifyRow, canAdjustProperties, applyAdj,
    oInterp, npInterp2, oGtQ, oLtQ, neQ, odiv, omul, oadd, osub, npPi,
    List.filter, Except.map, String.reduceEq]
  simp only [String.reduceEq, if_false]
  norm_num

/-- C2 (amended): for every OWT state with populated `transition_piece`
and `monopile` tables and a numeric `pile_head`, `assembly_tp_mp` keeps
the TP rows with "Elevation from" above `pile_head`; when the FIRST
such row's "Elevation to" already equals `pile_head` no row is
adjusted, otherwise the boundary (last) row is truncated at `pile_head`
via `can_modification`; the result followed by the monopile becomes
`substructure`, and the TP rows with "Elevation to" below `pile_head`,
truncated from the top at `pile_head`, become `tp_skirt`.  In
particular, in the spec's scenario (TP spans [6,8] and [0,4], MP
[0,−10], `pile_head = 5.0`) both `substructure` and `tp_skirt` are
non-null and truncated at elevation 5.0. -/
theorem c2_assembly_join (s : OWTState) (tp mp : List CanRow) (ph : ℚ) (r0 : CanRow)
    (h1 : s.transition_piece = some tp) (h2 : s.monopile = some mp)
    (h3 : s.pile_head = some ph)
    (hr0 : (tp.filter (fun r => oGtQ r.elev_from ph)).head? = some r0)
    (hskirt : tp.filter (fun r => oLtQ r.elev_to ph) ≠ []) :
    (∃ tp1 skirt,
      canModification (tp.filter (fun r => oGtQ r.elev_from ph)) (some ph) "bottom"
        = .ok tp1 ∧
      canModification (tp.filter (fun r => oLtQ r.elev_to ph)) (some ph) "top"
        = .ok skirt ∧
      assemblyTpMp s =
        ({ s with init_spec_part := true,
                  substructure := some ((if neQ r0.elev_to ph then tp1
                    else tp.filter (fun r => oGtQ r.elev_from ph)) ++ mp),
                  tp_skirt := some skirt }, none)) ∧
    ((assemblyTpMp specScenario).1.substructure =
      some [{ elev_from := some 6, elev_to := some 5, height_m := some 1,
              diam_from := some 6, diam_to := some 6,
              volume := some (599 * npPi / 10000), wall := some 10,
              youngs := none, poissons := none,
              mass_t := some (599 * npPi / 5000),
              rho := some (599 * npPi / 5000) }, c2MpRow] ∧
    (assemblyTpMp specScenario).1.tp_skirt =
      some [{ elev_from := some 5, elev_to := some 4, height_m := some 1,
              diam_from := some 6, diam_to := some 6,
              volume := some (599 * npPi / 10000), wall := some 10,
              youngs := none, poissons := none,
              mass_t := some (599 * npPi / 5000),
              rho := some (599 * npPi / 5000) }]) := by
  constructor
  · have hne1 : tp.filter (fun r => oGtQ r.elev_from ph) ≠ [] := by
      intro h
      rw [h] at hr0
      simp at hr0
    obtain ⟨rl, hrl, hbot⟩ := canModification_bottom
      (tp.filter (fun r => oGtQ r.elev_from ph)) (some ph) hne1
    obtain ⟨rt, tl, hdf2, htop⟩ := canModification_top
      (tp.filter (fun r => oLtQ r.elev_to ph)) (some ph) hskirt
    refine ⟨_, _, hbot, htop, ?_⟩
    unfold assemblyTpMp
    simp only [h1, h2, h3, hr0, hbot, htop, Except.map]
    by_cases hb : neQ r0.elev_to ph
    · simp [hb]
    · simp [hb]
  · constructor
    · norm_num [assemblyTpMp, specScenario, specTp1, specTp2, c2MpRow, mkCan,
        emptyOWT, canModification, canModifyRow, canAdjustProperties, applyAdj,
        oInterp, npInterp2, oGtQ, oLtQ, neQ, odiv, omul, oadd, osub, npPi,
        List.filter, Except.map, String.reduceEq]
      try simp only [String.reduceEq, if_false]
      try norm_num
    · norm_num [assemblyTpMp, specScenario, specTp1, specTp2, c2MpRow, mkCan,
        emptyOWT, canModification, canModifyRow, canAdjustProperties, applyAdj,
        oInterp, npInterp2, oGtQ, oLtQ, neQ, odiv, omul, oadd, osub, npPi,
        List.filter, Except.map, String.reduceEq]
      try simp only [String.reduceEq, if_false]
      try norm_num

/-- Witness for C2: the theorem applied to the spec scenario state
itself (first retained row `specTp1`, whose "Elevation to" is 8 ≠ 5,
hence the non-bolted branch). -/
theorem c2_witness :
    ∃ tp1 skirt,
      canModification ([specTp1, specTp2].filter (fun r => oGtQ r.elev_from 5))
        (some 5) "bottom" = .ok tp1 ∧
      canModification ([specTp1, specTp2].filter (fun r => oLtQ r.elev_to 5))
        (some 5) "top" = .ok skirt ∧
      assemblyTpMp specScenario =
        ({ specScenario with
            init_spec_part := true,
            substructure := some ((if neQ specTp1.elev_to 5 then tp1
              else [specTp1, specTp2].filter (fun r => oGtQ r.elev_from 5)) ++ [c2MpRow]),
            tp_skirt := some skirt }, none) :=
  (c2_assembly_join specScenario [specTp1, specTp2] [c2MpRow] 5 specTp1
    rfl rfl rfl
    (by norm_num [specTp1, specTp2, mkCan, oGtQ, List.filter])
    (by norm_num [specTp1, specTp2, mkCan, oLtQ, List.filter])).1

/-- C8: `assembly_full_structure` with a null `substructure` raises the
sequencing error naming the substructure (whatever the tower holds);
with a substructure but no tower it raises the one naming the tower; in
both cases `full_structure` stays untouched (only the stage flag is
set).  With both populated, `full_structure` becomes the tower rows
followed by the substructure rows. -/
theorem c8_full_structure_sequencing (s : OWTState) :
    (s.substructure = none →
      assemblyFullStructure s = ({ s with init_spec_full := true },
        some "Substructure needs to be processed before!")) ∧
    (∀ sub, s.substructure = some sub → s.tower = none →
      assemblyFullStructure s = ({ s with init_spec_full := true },
        some "Tower needs to be processed before!")) ∧
    (∀ sub tw, s.substructure = some sub → s.tower = some tw →
      assemblyFullStructure s =
        ({ s with
            init_spec_full := true,
            full_structure := some (tw ++ sub) }, none)) := by
  refine ⟨fun h => ?_, fun sub h ht => ?_, fun sub tw h ht => ?_⟩
  · unfold assemblyFullStructure
    simp [h]
  · unfold assemblyFullStructure
    simp [h, ht]
  · unfold assemblyFullStructure
    simp [h, ht]

/-- Witness for C8: all three cases at concrete states built from the
empty OWT. -/
theorem c8_witness :
    assemblyFullStructure emptyOWT = ({ emptyOWT with init_spec_full := true },
      some "Substructure needs to be processed before!") ∧
    assemblyFullStructure { emptyOWT with substructure := some [doctestCanRow] }
      = ({ emptyOWT with
            substructure := some [doctestCanRow],
            init_spec_full := true },
          some "Tower needs to be processed before!") ∧
    assemblyFullStructure { emptyOWT with
        substructure := some [doctestCanRow],
        tower := some [zeroWallCanRow] }
      = ({ emptyOWT with
            substructure := some [doctestCanRow],
            tower := some [zeroWallCanRow],
            init_spec_full := true,
            full_structure := some ([zeroWallCanRow] ++ [doctestCanRow]) }, none) :=
  ⟨(c8_full_structure_sequencing emptyOWT).1 rfl,
   (c8_full_structure_sequencing _).2.1 [doctestCanRow] rfl rfl,
   (c8_full_structure_sequencing _).2.2 [doctestCanRow] [zeroWallCanRow] rfl rfl⟩

/-- Counterexample for C9 as stated: `process_structure` with an
unrecognised option does NOT raise - its `if`/`elif` chain has no
`else`, so the call silently returns after setting the processed flag,
changing nothing else. -/
theorem c9_counterexample :
    processStructure emptyOWT "bogus" = ({ emptyOWT with init_proc := true }, none) := by
  unfold processStructure
  simp only [String.reduceEq, if_false]

/-- C9 (amended): `set_df_structure` raises "Unknown index." for every
index outside {tw, tp, mp} and `set_df_appurtenances` for every index
outside {TW, TP, MP}, but `process_structure` with an option outside
{full, TW, TP, MP} silently does nothing except setting the processed
flag (it does not raise). -/
theorem c9_unknown_index (s : OWTState) (idx opt : String) :
    (idx ∉ (["tw", "tp", "mp"] : List String) →
      setDfStructure s idx = (s, .error "Unknown index.")) ∧
    (idx ∉ (["TW", "TP", "MP"] : List String) →
      setDfAppurtenances s idx = .error "Unknown index.") ∧
    (opt ∉ (["full", "TW", "TP", "MP"] : List String) →
      processStructure s opt = ({ s with init_proc := true }, none)) := by
  refine ⟨fun h => ?_, fun h => ?_, fun h => ?_⟩
  · simp only [List.mem_cons, List.not_mem_nil, or_false, not_or] at h
    obtain ⟨h1, h2, h3⟩ := h
    unfold setDfStructure
    rw [if_neg h1, if_neg h2, if_neg h3]
  · simp only [List.mem_cons, List.not_mem_nil, or_false, not_or] at h
    obtain ⟨h1, h2, h3⟩ := h
    unfold setDfAppurtenances
    rw [if_neg h1, if_neg h2, if_neg h3]
  · simp only [List.mem_cons, List.not_mem_nil, or_false, not_or] at h
    obtain ⟨h1, h2, h3, h4⟩ := h
    unfold processStructure
    rw [if_neg h1, if_neg h2, if_neg h3, if_neg h4]

/-- Witness for C9 (amended): the three conclusions at the empty state
and the unknown string "xx". -/
theorem c9_witness :
    setDfStructure emptyOWT "xx" = (emptyOWT, .error "Unknown index.") ∧
    setDfAppurtenances emptyOWT "xx" = .error "Unknown index." ∧
    processStructure emptyOWT "xx" = ({ emptyOWT with init_proc := true }, none) :=
  ⟨(c9_unknown_index emptyOWT "xx" "xx").1 (by decide),
   (c9_unknown_index emptyOWT "xx" "xx").2.1 (by decide),
   (c9_unknown_index emptyOWT "xx" "xx").2.2 (by decide)⟩

/-- C6: `OWTs.process_structures` is idempotent.  After any call the
`_init` flag is set, and a second call on the resulting state returns
immediately with that state unchanged and no error - so every fleet
table (`all_tubular_structures`, `all_distributed_mass`,
`all_lumped_mass`, `all_turbines`, the `pile_toe` map and the
concatenated per-category tables) keeps exactly its value after the
first call, with no rows appended twice. -/
theorem c6_process_structures_idempotent (S : OWTsState) :
    ((processStructures S).1)._init = true ∧
    processStructures ((processStructures S).1) = ((processStructures S).1, none) := by
  refine ⟨processStructures_init S, ?_⟩
  have h := processStructures_init S
  conv_lhs => rw [processStructures]
  rw [if_pos h]

/-- C7: reading a derived-table attribute of an `OWT` (the `ATTR_PROC`
and `ATTR_SPEC` slots) or a fleet-table attribute of an `OWTs` before
the corresponding stage completed never raises: the interception emits
a warning exactly when the stage flags are still unset (for an `OWT`:
an `ATTR_PROC` name with `_init_proc` unset, or an `ATTR_SPEC` name
with either assembly flag unset; for an `OWTs`: any tracked name with
`_init` unset) and returns exactly the currently stored value, leaving
the state unchanged. -/
theorem c7_warn_on_unprocessed_read :
    (∀ (s : OWTState) (a : OwtAttr),
      readOwtAttr s a =
        ((decide (a.name ∈ ATTR_PROC) && !s.init_proc
          || decide (a.name ∈ ATTR_SPEC) && (!s.init_spec_part || !s.init_spec_full)),
         getOwtAttr s a, s)) ∧
    (∀ (S : OWTsState) (a : OwtsAttr),
      readOwtsAttr S a =
        (decide (a.name ∈ ATTR_PROC ++ ATTR_SPEC ++ ATTR_FULL) && !S._init,
         getOwtsAttr S a, S)) := by
  constructor
  · intro s a
    cases a <;> cases hp : s.init_proc <;> cases h1 : s.init_spec_part <;>
      cases h2 : s.init_spec_full <;>
      simp [readOwtAttr, OwtAttr.name, ATTR_PROC, ATTR_SPEC, hp, h1, h2]
  · intro S a
    cases a <;> cases hi : S._init <;>
      simp [readOwtsAttr, OwtsAttr.name, ATTR_PROC, ATTR_SPEC, ATTR_FULL, hi]

/-- Helper: the demo subassembly's absolute bottom evaluates to 15 m. -/
lemma absoluteBottom_demoSA : absoluteBottom demoSA = .ok 15 := by
  norm_num [absoluteBottom, saAsDf, bbAsDict, diameterStr, wallThicknessCell,
    bbVolume, bbMass, bbMoi, bbType, RawV.present, RawV.truthy, RawV.toNum,
    RawV.cellE, heightCell, demoSA, demoBB, demoSteel, calcConeVolume,
    Except.pure, Except.bind, Except.map, bind, pure, npPi, List.mergeSort,
    List.mapM.loop, String.reduceEq, roundTo, roundEven]
  simp only [String.reduceEq, if_false]
  norm_num [Int.fract]

/-- C10: in the `OWT` constructor the `tower_base`/`pile_head`
arguments are tested for Python FALSINESS, not absence: if either is
`None` OR equal to `0.0`, both supplied values are discarded and both
elevations are derived from the subassemblies (`tower_base` from the TW
subassembly's absolute bottom, else the TP subassembly's absolute top,
else `None`; `pile_head` from the MP subassembly's absolute top, else
`None`); only when both are truthy are the supplied values kept. -/
theorem c10_elevation_falsiness (tb ph : Option ℚ) (subs : List (String × SAState)) :
    (optTruthy tb = false ∨ optTruthy ph = false →
      owtSetElevations tb ph subs = owtSetElevations none none subs) ∧
    (optTruthy tb = true → optTruthy ph = true →
      owtSetElevations tb ph subs = .ok (tb, ph)) ∧
    (∀ saTW b, alookup subs "TW" = some saTW → absoluteBottom saTW = .ok b →
      alookup subs "MP" = none →
      owtSetElevations none none subs = .ok (some b, none)) ∧
    (alookup subs "TW" = none → ∀ saTP t, alookup subs "TP" = some saTP →
      absoluteTop saTP = .ok t → alookup subs "MP" = none →
      owtSetElevations none none subs = .ok (some t, none)) ∧
    (∀ saMP hq, alookup subs "MP" = some saMP → absoluteTop saMP = .ok hq →
      alookup subs "TW" = none → alookup subs "TP" = none →
      owtSetElevations none none subs = .ok (none, some hq)) ∧
    (alookup subs "TW" = none → alookup subs "TP" = none → alookup subs "MP" = none →
      owtSetElevations none none subs = .ok (none, none)) := by
  refine ⟨?_, ?_, ?_, ?_, ?_, ?_⟩
  · intro h
    rcases h with h | h <;>
      · simp only [optTruthy, decide_not] at h
        simp [owtSetElevations, optTruthy, h, Except.pure, Except.bind,
          Except.map, bind, pure]
  · intro h1 h2
    simp only [optTruthy, decide_not] at h1 h2
    simp [owtSetElevations, optTruthy, h1, h2, Except.pure, Except.bind,
      Except.map, bind, pure]
  · intro saTW b hTW hb hMP
    simp [owtSetElevations, optTruthy, hTW, hb, hMP, Except.pure, Except.bind,
      Except.map, bind, pure]
  · intro hTW saTP t hTP ht hMP
    simp [owtSetElevations, optTruthy, hTW, hTP, ht, hMP, Except.pure,
      Except.bind, Except.map, bind, pure]
  · intro saMP hq hMP hh hTW hTP
    simp [owtSetElevations, optTruthy, hMP, hh, hTW, hTP, Except.pure,
      Except.bind, Except.map, bind, pure]
  · intro hTW hTP hMP
    simp [owtSetElevations, optTruthy, hTW, hTP, hMP, Except.pure, Except.bind,
      Except.map, bind, pure]

/-- Witness for C10: an explicitly passed `tower_base = 0.0` (with a
truthy `pile_head = 5`) is silently replaced - the result is the same
as passing nothing, namely the TW subassembly's absolute bottom (15 m)
and a `None` pile head. -/
theorem c10_witness :
    optTruthy (some 0) = false ∧
    owtSetElevations (some 0) (some 5) [("TW", demoSA)]
      = owtSetElevations none none [("TW", demoSA)] ∧
    owtSetElevations (some 0) (some 5) [("TW", demoSA)] = .ok (some 15, none) := by
  have h1 : optTruthy (some 0) = false := by simp [optTruthy]
  have hTW : alookup [("TW", demoSA)] "TW" = some demoSA := by simp [alookup]
  have hMP : alookup [("TW", demoSA)] "MP" = none := by simp [alookup]
  have heq := (c10_elevation_falsiness (some 0) (some 5) [("TW", demoSA)]).1 (Or.inl h1)
  have hder := (c10_elevation_falsiness (some 0) (some 5) [("TW", demoSA)]).2.2.1
    demoSA 15 hTW absoluteBottom_demoSA hMP
  exact ⟨h1, heq, heq.trans hder⟩

end Owi
